import Mathlib

/-!
# Binance alpha tool: a shallow embedding of `alpha_tool.js`

The script drives a live page: it locates controls with CSS selectors, writes
values through the native `HTMLInputElement` value setter, dispatches synthetic
events, and paces itself with random delays.  The page is owned by the host
application, which may re-render it whenever the script is suspended.

The embedding keeps

* a heap of element records indexed by node id (a handle held by the script
  stays valid even when the node leaves the document),
* the document: the attached nodes in document order,
* a chronological trace of what the script did (queries, writes, dispatched
  events, delays, and the lifecycle lines it prints).

Every function of the source is a state transformer over that page which may
end in a thrown error.

What is left to the host: which selectors an element matches (the selector
strings of the source are kept, their matching is a field of the element), what
its listeners do to the document inside a `focus()`, `blur()`, `click()` or
`dispatchEvent()` call (`Host.listen`), and what happens to the document during
a delay (`Host.settle`); both are arbitrary functions of the document and of
everything the script did so far.  The sampled length of a delay and the console
diagnostics other than the lifecycle lines are not represented.
-/

namespace AlphaTool

/-! ## Data model -/

/-- A synthetic event as built by `new Event(..)` / `new MouseEvent(..)`:
its type, the two init flags, and the client coordinates when given. -/
structure DomEvent where
  kind : String
  bubbles : Bool
  cancelable : Bool
  client : Option (Int × Int)
deriving DecidableEq, Repr

/-- The lifecycle lines written to the console by `executeTrade` and
`runTradeLoop` (source lines 173, 320, 322, 334, 337, 340, 348).  Diagnostics
that do not mark a lifecycle boundary are not represented. -/
inductive Log where
  | tradeStart (iteration : Nat)
  | tradeCompleted (iteration : Nat)
  | tradeError (iteration : Nat) (message : String)
  | iterationStart (i maxIterations : Nat)
  | iterationSucceeded (i : Nat)
  | iterationFailed (i : Nat) (message : String)
  | loopCompleted (successful failed : Nat)
deriving DecidableEq, Repr

/-- One observable thing the script did. -/
inductive Action where
  /-- A `document.querySelector` / `querySelectorAll` call and the nodes it returned. -/
  | query (css : String) (found : List Nat)
  /-- An assignment `element.disabled = v`. -/
  | setDisabled (node : Nat) (v : Bool)
  /-- An assignment `element.readOnly = v`. -/
  | setReadOnly (node : Nat) (v : Bool)
  /-- A call of the native value setter with receiver `node`. -/
  | nativeSetValue (node : Nat) (value : String)
  /-- A call `element.setAttribute(name, value)`. -/
  | setAttribute (node : Nat) (name value : String)
  /-- A call `element.focus()`. -/
  | focus (node : Nat)
  /-- A call `element.blur()`. -/
  | blur (node : Nat)
  /-- A call `element.dispatchEvent(ev)`. -/
  | dispatch (node : Nat) (ev : DomEvent)
  /-- A call `element.click()`. -/
  | click (node : Nat)
  /-- A call `randomDelay(min, max)`, awaited. -/
  | delay (min max : Nat)
  /-- A lifecycle line on the console. -/
  | console (line : Log)
deriving DecidableEq, Repr

/-- The part of an element the script reads or writes. -/
structure Element where
  /-- The selectors of the script the element matches (`el.matches(css)`). -/
  matchesSel : String → Bool
  textContent : String
  /-- The attribute map behind `getAttribute` / `setAttribute`. -/
  attrs : String → Option String
  disabled : Bool
  readOnly : Bool
  /-- Whether the native `HTMLInputElement` value setter accepts the element as receiver. -/
  isInput : Bool
  value : String
  /-- Origin of `getBoundingClientRect()`, in whole pixels. -/
  left : Int
  top : Int

/-- The live document tree together with the heap of nodes. -/
structure Dom where
  node : Nat → Element
  /-- Attached nodes, in document order. -/
  document : List Nat
  /-- Whether `Object.getOwnPropertyDescriptor(window.HTMLInputElement.prototype, 'value')`
  yields a callable setter. -/
  valueSetter : Bool

/-- Replace the record of one node. -/
def Dom.update (d : Dom) (n : Nat) (f : Element → Element) : Dom :=
  { d with node := fun m => if m = n then f (d.node m) else d.node m }

/-- The state the script runs against. -/
structure Page where
  dom : Dom
  trace : List Action

/-- The host application, as far as the script can tell: what its listeners do to the
document, inside the call, when the script calls `focus()`, `blur()`, `click()` or
`dispatchEvent()` on an element, and what it does to the document while the script is
suspended in a delay.  Both are arbitrary functions of the document and of everything the
script did so far, the call being answered included. -/
structure Host where
  listen : List Action → Dom → Dom
  settle : List Action → Dom → Dom

/-- The loop counters of `runTradeLoop`. -/
structure Tally where
  successfulIterations : Nat
  failedIterations : Nat
deriving DecidableEq, Repr

/-- The optional `options` argument of `setInputValue`; an absent field is `none`. -/
structure Options where
  triggerChange : Option Bool
  updateAria : Option Bool
deriving DecidableEq, Repr

deriving instance DecidableEq for Except

/-! ## Scripts: state transformers that may throw -/

/-- A script: runs against a page, yields a value or a thrown message, and the page it left. -/
def Script (α : Type) : Type := Page → Except String α × Page

instance : Monad Script where
  pure a := fun s => (.ok a, s)
  bind m f := fun s =>
    match m s with
    | (.ok a, s') => f a s'
    | (.error e, s') => (.error e, s')

instance : MonadExcept String Script where
  throw e := fun s => (.error e, s)
  tryCatch m h := fun s =>
    match m s with
    | (.ok a, s') => (.ok a, s')
    | (.error e, s') => h e s'

/-- The `finally` clause: `fin` runs after `m` however `m` ended, and `m`'s outcome stands
unless `fin` itself throws. -/
def Script.andFinally {α : Type} (m : Script α) (fin : Script Unit) : Script α := fun s =>
  match m s with
  | (r, s') =>
    match fin s' with
    | (.ok _, s'') => (r, s'')
    | (.error e, s'') => (.error e, s'')

/-- Read from the document without leaving a mark. -/
def Script.read {α : Type} (f : Dom → α) : Script α := fun s => (.ok (f s.dom), s)

/-- Do one thing to the document and record it. -/
def Script.perform (a : Action) (f : Dom → Dom) : Script Unit := fun s =>
  (.ok (), { dom := f s.dom, trace := s.trace ++ [a] })

/-- Do something that runs listeners of the host before it returns: the call is recorded
and the listeners have their way with the document.  What a listener throws is reported by
the browser and not thrown on to the caller, so the call itself ends normally. -/
def Script.fire (host : Host) (a : Action) : Script Unit := fun s =>
  (.ok (), { dom := host.listen (s.trace ++ [a]) s.dom, trace := s.trace ++ [a] })

/-- An `if (c) { m }` without `else`. -/
def Script.when (c : Bool) (m : Script Unit) : Script Unit :=
  if c then m else pure ()

/-! ## Strings -/

/-- The characters `String.prototype.trim` strips: WhiteSpace and LineTerminator. -/
def isJsWhiteSpace (c : Char) : Bool :=
  c.toNat ∈ [0x09, 0x0A, 0x0B, 0x0C, 0x0D, 0x20, 0xA0, 0x1680, 0x2028, 0x2029, 0x202F, 0x205F,
    0x3000, 0xFEFF] || (0x2000 ≤ c.toNat && c.toNat ≤ 0x200A)

/-- The value of `text.trim()`. -/
def jsTrim (text : String) : String :=
  String.mk ((text.data.dropWhile isJsWhiteSpace).reverse.dropWhile isJsWhiteSpace).reverse

/-- The value of `text.includes(needle)`. -/
def jsIncludes (text needle : String) : Bool :=
  text.data.tails.any (fun rest => needle.data.isPrefixOf rest)

/-! ## DOM primitives -/

/-- A call of `console.log` / `console.error` with a lifecycle line. -/
def log (line : Log) : Script Unit := Script.perform (.console line) id

/-- A call of `document.querySelector(css)`: the first attached node matching `css`. -/
def querySelector (css : String) : Script (Option Nat) := fun s =>
  let found := s.dom.document.find? (fun n => (s.dom.node n).matchesSel css)
  (.ok found, { s with trace := s.trace ++ [.query css found.toList] })

/-- A call of `document.querySelectorAll(css)`: all attached nodes matching `css`, in
document order. -/
def querySelectorAll (css : String) : Script (List Nat) := fun s =>
  let found := s.dom.document.filter (fun n => (s.dom.node n).matchesSel css)
  (.ok found, { s with trace := s.trace ++ [.query css found] })

/-- The assignment `element.disabled = v`. -/
def setDisabled (el : Nat) (v : Bool) : Script Unit :=
  Script.perform (.setDisabled el v) (fun d => d.update el (fun e => { e with disabled := v }))

/-- The assignment `element.readOnly = v`. -/
def setReadOnly (el : Nat) (v : Bool) : Script Unit :=
  Script.perform (.setReadOnly el v) (fun d => d.update el (fun e => { e with readOnly := v }))

/-- A call of `element.setAttribute(name, value)`. -/
def setAttribute (el : Nat) (name value : String) : Script Unit :=
  Script.perform (.setAttribute el name value)
    (fun d => d.update el (fun e =>
      { e with attrs := fun k => if k = name then some value else e.attrs k }))

/-- A call of `element.focus()`; the focus listeners of the host run inside it. -/
def focus (host : Host) (el : Nat) : Script Unit := Script.fire host (.focus el)

/-- A call of `element.blur()`; the blur listeners of the host run inside it. -/
def blur (host : Host) (el : Nat) : Script Unit := Script.fire host (.blur el)

/-- A call of `element.dispatchEvent(ev)`; the listeners of the host for the event run
inside it. -/
def dispatchEvent (host : Host) (el : Nat) (ev : DomEvent) : Script Unit :=
  Script.fire host (.dispatch el ev)

/-- A call of `element.click()`; the click listeners of the host run inside it. -/
def nativeClick (host : Host) (el : Nat) : Script Unit := Script.fire host (.click el)

/-- The lookup of lines 19-22: `.set` of the descriptor; a missing descriptor or a missing
setter ends in a `TypeError`. -/
def nativeInputValueSetter : Script Unit := fun s =>
  if s.dom.valueSetter then (.ok (), s) else (.error "TypeError", s)

/-- Line 30, `nativeInputValueSetter.call(element, value)`: a receiver that is not an
`HTMLInputElement` is rejected with a `TypeError`. -/
def callNativeSetter (el : Nat) (value : String) : Script Unit := fun s =>
  if (s.dom.node el).isInput then
    Script.perform (.nativeSetValue el value)
      (fun d => d.update el (fun e => { e with value := value })) s
  else (.error "TypeError", s)

/-- Source lines 117-121, awaited.  The sampled duration is not represented: the host may
do to the document whatever it likes while the script is suspended. -/
def randomDelay (host : Host) (min max : Nat) : Script Unit := fun s =>
  (.ok (), { dom := host.settle (s.trace ++ [.delay min max]) s.dom,
             trace := s.trace ++ [.delay min max] })

/-! ## The functions of the script -/

/-- The `try` block of `setInputValue`, source lines 18-60, with the three flags of
lines 8-9 already computed. -/
def setInputValue.write (host : Host) (el : Nat) (value : String)
    (isSlider triggerChange updateAria : Bool) : Script Unit := do
  nativeInputValueSetter
  let inputEvent : DomEvent := ⟨"input", true, true, none⟩
  callNativeSetter el value
  setAttribute el "value" value
  Script.when updateAria (do
    setAttribute el "aria-valuenow" value
    setAttribute el "aria-valuetext" (value ++ " units"))
  Script.when isSlider (focus host el)
  dispatchEvent host el inputEvent
  Script.when triggerChange (do
    let changeEvent : DomEvent := ⟨"change", true, true, none⟩
    dispatchEvent host el changeEvent)
  Script.when isSlider (blur host el)

/-- Source lines 2-71.  A normal end of the `try` block falls through to `return true`
on line 70; the `catch` returns `false`; the `finally` block runs in both cases. -/
def setInputValue (host : Host) (element : Option Nat) (value : String) (options : Options) :
    Script Bool :=
  match element with
  | none => pure false
  | some el => do
    let isSlider ← Script.read (fun d => decide ((d.node el).attrs "role" = some "slider"))
    let triggerChange := options.triggerChange.getD isSlider
    let updateAria := options.updateAria.getD isSlider
    let wasDisabled ← Script.read (fun d => (d.node el).disabled)
    let wasReadOnly ← Script.read (fun d => (d.node el).readOnly)
    Script.when wasDisabled (setDisabled el false)
    Script.when wasReadOnly (setReadOnly el false)
    Script.andFinally
      (tryCatch
        (do
          setInputValue.write host el value isSlider triggerChange updateAria
          pure true)
        (fun _ => pure false))
      (do
        Script.when wasDisabled (setDisabled el true)
        Script.when wasReadOnly (setReadOnly el true))

/-- Source lines 74-101.  The `type` argument only labels diagnostics. -/
def simulateClick (host : Host) (element : Option Nat) (_type : String) : Script Bool :=
  match element with
  | none => pure false
  | some el => do
    let disabled ← Script.read (fun d => (d.node el).disabled)
    if disabled then
      pure false
    else do
      let left ← Script.read (fun d => (d.node el).left)
      let top ← Script.read (fun d => (d.node el).top)
      let mouseClickEvent : DomEvent := ⟨"click", true, true, some (left + 10, top + 10)⟩
      let mouseDownEvent : DomEvent := ⟨"mousedown", true, true, none⟩
      let mouseUpEvent : DomEvent := ⟨"mouseup", true, true, none⟩
      focus host el
      dispatchEvent host el mouseDownEvent
      dispatchEvent host el mouseClickEvent
      dispatchEvent host el mouseUpEvent
      pure true

/-- The selector built on line 105. -/
def tabSelector (id : String) : String :=
  "div[role=\"tab\"][id=\"" ++ id ++ "\"].bn-tab.bn-tab__buySell"

/-- Source lines 104-114. -/
def clickTab (host : Host) (id text : String) : Script Bool := do
  let candidates ← querySelectorAll (tabSelector id)
  let element ← Script.read (fun d =>
    candidates.find? (fun el => decide (jsTrim (d.node el).textContent = text)))
  match element with
  | none => pure false
  | some el => simulateClick host (some el) ("Tab \"" ++ text ++ "\"")

/-- Source lines 124-131. -/
def clickConfirmButton (host : Host) : Script Bool := do
  let button ← querySelector ".bn-modal-footer .bn-button.bn-button__primary"
  match button with
  | none => pure false
  | some b => simulateClick host (some b) "Confirm button"

/-- Source lines 137-146: dismiss an open modal through its cancel button.  A click
that fails is only reported (lines 141-143). -/
def resetTradePanel.closeModal (host : Host) : Script Unit := do
  let modal ← querySelector ".bn-modal-footer"
  match modal with
  | none => pure ()
  | some _ => do
    let cancelButton ← querySelector ".bn-modal-footer .bn-button:not(.bn-button__primary)"
    match cancelButton with
    | none => pure ()
    | some c => do
      let _ ← simulateClick host (some c) "Cancel button"
      randomDelay host 500 1000

/-- Source lines 134-168.  Nothing inside the `try` throws, so the `catch` of
lines 164-167 is kept only as the handler it is. -/
def resetTradePanel (host : Host) : Script Bool :=
  tryCatch
    (do
      resetTradePanel.closeModal host
      let onBuyTab ← clickTab host "bn-tab-0" "买入"
      if !onBuyTab then
        pure false
      else do
        randomDelay host 500 1000
        let buyInput ← querySelector "#fromCoinAmount"
        let slider ← querySelector "input[role=\"slider\"]"
        if buyInput.isNone || slider.isNone then
          pure false
        else
          pure true)
    (fun _ => pure false)

/-- Source lines 204-213 (and again 269-277): click the slippage settings affordance.  A
missing affordance is only reported. -/
def configureSlippage.openPanel (host : Host) : Script Unit := do
  let button ← querySelector "div.t-subtitle3.text-PrimaryText div.bn-flex.cursor-pointer"
  (match button with
    | some b => nativeClick host b
    | none => pure ())
  randomDelay host 500 1000

/-- Source lines 215-233 (and again 279-297): scan the option nodes for the first whose text
contains the custom marker, wait, and click it.  A missing option is only reported. -/
def configureSlippage.pickCustom (host : Host) : Script Unit := do
  let buttonList ← querySelectorAll "div.t-subtitle1.text-PrimaryText"
  let targetButton ← Script.read (fun d =>
    buttonList.find? (fun el => jsIncludes (d.node el).textContent "自定义"))
  randomDelay host 500 1000
  (match targetButton with
    | some t => nativeClick host t
    | none => pure ())
  randomDelay host 500 1000

/-- Source lines 234-236 (and again 298-300): write the tolerance into whatever
`#customize-slippage` resolves to.  The result of the write is dropped. -/
def configureSlippage.inject (host : Host) : Script Unit := do
  let customizeinput ← querySelector "#customize-slippage"
  let _ ← setInputValue host customizeinput "0.1" ⟨none, none⟩
  randomDelay host 500 1000

/-- Source lines 204-236 and, verbatim again, 269-300: open the slippage panel, pick the
custom option, write the tolerance.  Nothing here is checked. -/
def configureSlippage (host : Host) : Script Unit := do
  configureSlippage.openPanel host
  configureSlippage.pickCustom host
  configureSlippage.inject host

/-- The test of lines 244-245 and 308-309: `!button || !simulateClick(button, type)`,
negated. -/
def locateAndClick (host : Host) (css type : String) : Script Bool := do
  let button ← querySelector css
  match button with
  | none => pure false
  | some b => simulateClick host (some b) type

/-- One step of the workflow of `executeTrade`. -/
inductive Step where
  /-- The shape `if (!check) throw new Error(failure); await randomDelay(min, max)`. -/
  | guarded (check : Script Bool) (failure : String) (min max : Nat)
  /-- The unchecked slippage block. -/
  | slippage

/-- Run one step. -/
def Step.run (host : Host) : Step → Script Unit
  | .guarded check failure min max => do
    let passed ← check
    if !passed then throw failure else randomDelay host min max
  | .slippage => configureSlippage host

/-- Run steps in order; the first throw ends the run. -/
def runSteps (host : Host) : List Step → Script Unit
  | [] => pure ()
  | step :: rest => do
    step.run host
    runSteps host rest

/-- Source lines 190-318 in order, with `buyInput` and `slider` the handles of
lines 181-182. -/
def workflow (host : Host) (buyInput slider : Nat) : List Step :=
  [ .guarded (clickTab host "bn-tab-0" "买入") "Failed to click Buy tab" 500 1000,
    .guarded (setInputValue host (some buyInput) "8" ⟨none, none⟩)
      "Failed to set buy input value" 2000 4000,
    .slippage,
    .guarded (clickConfirmButton host) "Failed to click Confirm button for sell" 3000 5000,
    .guarded (locateAndClick host ".bn-button.bn-button__buy" "Buy button")
      "Failed to click Buy button" 500 1000,
    .guarded (clickConfirmButton host) "Failed to click Confirm button for buy" 3000 5000,
    .guarded (clickTab host "bn-tab-1" "卖出") "Failed to click Sell tab" 500 1000,
    .guarded (setInputValue host (some slider) "100" ⟨some true, some true⟩)
      "Failed to set slider value" 3000 5000,
    .slippage,
    .guarded (clickConfirmButton host) "Failed to click Confirm button for sell" 3000 5000,
    .guarded (locateAndClick host ".bn-button.bn-button__sell" "Sell button")
      "Failed to click Sell button" 500 1000,
    .guarded (clickConfirmButton host) "Failed to click Confirm button for sell" 1000 2000 ]

/-- Source lines 181-186: resolve the buy-amount field and the slider; throw when either
is missing. -/
def acquire.handles : Script (Nat × Nat) := do
  let buyInput ← querySelector "#fromCoinAmount"
  let slider ← querySelector "input[role=\"slider\"]"
  match buyInput, slider with
  | some b, some sl => pure (b, sl)
  | _, _ => throw "Required elements not found"

/-- Source lines 176-186: reset the panel, then resolve the two handles the attempt
keeps.  Either check throws when it fails. -/
def acquire (host : Host) : Script (Nat × Nat) := do
  let ready ← resetTradePanel host
  if !ready then
    throw "Failed to reset trade panel"
  else
    acquire.handles

/-- Source lines 176-318: everything inside the `try` of `executeTrade` between its
first and its last console line. -/
def executeTrade.attempt (host : Host) : Script Unit := do
  let handles ← acquire host
  runSteps host (workflow host handles.1 handles.2)

/-- Source lines 171-325. -/
def executeTrade (host : Host) (iteration : Nat) : Script Unit :=
  tryCatch
    (do
      log (.tradeStart iteration)
      executeTrade.attempt host
      log (.tradeCompleted iteration))
    (fun error => do
      log (.tradeError iteration error)
      throw error)

/-- The body of the `for` loop of `runTradeLoop`, source lines 333-345. -/
def runTradeLoop.iteration (host : Host) (maxIterations i : Nat) (tally : Tally) :
    Script Tally := do
  let next ← tryCatch
    (do
      log (.iterationStart i maxIterations)
      executeTrade host i
      let tally := { tally with successfulIterations := tally.successfulIterations + 1 }
      log (.iterationSucceeded i)
      pure tally)
    (fun error => do
      let tally := { tally with failedIterations := tally.failedIterations + 1 }
      log (.iterationFailed i error)
      randomDelay host 1000 2000
      pure tally)
  randomDelay host 3000 7000
  pure next

/-- The `for` loop of source lines 332-346 with `remaining` iterations to go, the next one
numbered `i`: the loop test `i <= maxIterations` holds exactly while `remaining` is
positive. -/
def runTradeLoop.loop (host : Host) (maxIterations : Nat) :
    (remaining i : Nat) → Tally → Script Tally
  | 0, _, tally => pure tally
  | remaining + 1, i, tally => do
    let next ← runTradeLoop.iteration host maxIterations i tally
    runTradeLoop.loop host maxIterations remaining (i + 1) next

/-- Source lines 328-349; the value is the tally printed on line 348. -/
def runTradeLoop (host : Host) (maxIterations : Nat) : Script Tally := do
  let tally ← runTradeLoop.loop host maxIterations maxIterations 1 ⟨0, 0⟩
  log (.loopCompleted tally.successfulIterations tally.failedIterations)
  pure tally

/-! ## A page on which everything is in place -/

/-- An element matching exactly one selector, enabled, with the given text. -/
def plainElement (css text : String) (isInput : Bool) : Element :=
  { matchesSel := fun q => decide (q = css), textContent := text, attrs := fun _ => none,
    disabled := false, readOnly := false, isInput := isInput, value := "", left := 0, top := 0 }

/-- The nodes of the demonstration page, in document order: the buy tab (0), the sell tab
(1), the buy-amount field (2), the slider (3), the slippage settings affordance (4), two
slippage options (5, 6), the custom slippage field (7), the confirm button (8), the buy
button (9), the sell button (10), the modal footer (11) and its cancel button (12). -/
def demoNodes : List Element :=
  [ plainElement (tabSelector "bn-tab-0") " 买入 " false,
    plainElement (tabSelector "bn-tab-1") "卖出" false,
    plainElement "#fromCoinAmount" "" true,
    { plainElement "input[role=\"slider\"]" "" true with
      attrs := fun k => if k = "role" then some "slider" else none },
    plainElement "div.t-subtitle3.text-PrimaryText div.bn-flex.cursor-pointer" "" false,
    plainElement "div.t-subtitle1.text-PrimaryText" "自动" false,
    plainElement "div.t-subtitle1.text-PrimaryText" "自定义滑点" false,
    plainElement "#customize-slippage" "" true,
    plainElement ".bn-modal-footer .bn-button.bn-button__primary" "确认" false,
    plainElement ".bn-button.bn-button__buy" "买入" false,
    plainElement ".bn-button.bn-button__sell" "卖出" false,
    plainElement ".bn-modal-footer" "取消确认" false,
    plainElement ".bn-modal-footer .bn-button:not(.bn-button__primary)" "取消" false ]

/-- A node outside every page: it matches none of the selectors of the script. -/
def blankElement : Element := plainElement "" "" false

/-- A document made of the given nodes, all attached. -/
def domOf (nodes : List Element) (valueSetter : Bool) : Dom :=
  { node := fun n => nodes.getD n blankElement, document := List.range nodes.length,
    valueSetter := valueSetter }

/-- The demonstration page before the script starts. -/
def demoPage : Page := { dom := domOf demoNodes true, trace := [] }

/-- A host that never touches the document. -/
def idleHost : Host := { listen := fun _ d => d, settle := fun _ d => d }

/-- The demonstration page with its buy tab disabled. -/
def lockedTabPage : Page :=
  { dom := (domOf demoNodes true).update 0 (fun e => { e with disabled := true }), trace := [] }

/-- The demonstration page on which the native value setter cannot be obtained and the
buy-amount field is both disabled and read-only. -/
def noSetterPage : Page :=
  { dom := (domOf demoNodes false).update 2
      (fun e => { e with disabled := true, readOnly := true }),
    trace := [] }

/-! ## Frames: what a script leaves related between the page before and the page after -/

/-- A relation between the page before and the page after that holds when nothing is
done and composes along sequencing. -/
structure Frame where
  rel : Page → Page → Prop
  refl : ∀ s, rel s s
  trans : ∀ a b c, rel a b → rel b c → rel a c

/-- Every run of the script, thrown or not, leaves the two pages related. -/
def Script.Sat {α : Type} (F : Frame) (m : Script α) : Prop := ∀ s, F.rel s (m s).2

/-- The script never throws. -/
def Script.Total {α : Type} (m : Script α) : Prop := ∀ s, ∃ a, (m s).1 = .ok a

/-- The `disabled` and `readOnly` flags of one element are what they were. -/
def gatingFrame (el : Nat) : Frame where
  rel s s' := (s'.dom.node el).disabled = (s.dom.node el).disabled ∧
    (s'.dom.node el).readOnly = (s.dom.node el).readOnly
  refl _ := ⟨rfl, rfl⟩
  trans _ _ _ h₁ h₂ := ⟨h₂.1.trans h₁.1, h₂.2.trans h₁.2⟩

/-! ## Closed forms of what the primitives add to the trace -/

/-- What the `try` block of `setInputValue` adds to the trace when it runs to its end. -/
def setInputValue.writeActions (el : Nat) (value : String)
    (isSlider triggerChange updateAria : Bool) : List Action :=
  [.nativeSetValue el value, .setAttribute el "value" value] ++
    (if updateAria then
      [.setAttribute el "aria-valuenow" value,
        .setAttribute el "aria-valuetext" (value ++ " units")]
    else []) ++
    (if isSlider then [.focus el] else []) ++
    [.dispatch el ⟨"input", true, true, none⟩] ++
    (if triggerChange then [.dispatch el ⟨"change", true, true, none⟩] else []) ++
    (if isSlider then [.blur el] else [])

/-- What `setInputValue(el, value, options)` adds to the trace on a document `d`: the
gating lift, the writes and events of the `try` block when the native setter is at hand
and accepts the element, and the gating restore. -/
def setInputValue.actions (d : Dom) (el : Nat) (value : String) (options : Options) :
    List Action :=
  let isSlider := decide ((d.node el).attrs "role" = some "slider")
  (if (d.node el).disabled then [.setDisabled el false] else []) ++
    (if (d.node el).readOnly then [.setReadOnly el false] else []) ++
    (if d.valueSetter && (d.node el).isInput then
      setInputValue.writeActions el value isSlider (options.triggerChange.getD isSlider)
        (options.updateAria.getD isSlider)
    else []) ++
    (if (d.node el).disabled then [.setDisabled el true] else []) ++
    (if (d.node el).readOnly then [.setReadOnly el true] else [])

/-- What `simulateClick(el)` adds to the trace on a document `d`. -/
def simulateClick.actions (d : Dom) (el : Nat) : List Action :=
  if (d.node el).disabled then []
  else
    [.focus el, .dispatch el ⟨"mousedown", true, true, none⟩,
      .dispatch el ⟨"click", true, true, some ((d.node el).left + 10, (d.node el).top + 10)⟩,
      .dispatch el ⟨"mouseup", true, true, none⟩]

/-- The demonstration page with a second buy tab of the same text right after the first:
node 13, placed second in document order. -/
def twinTabPage : Page :=
  { dom :=
      { node := fun n =>
          if n = 13 then plainElement (tabSelector "bn-tab-0") "买入" false
          else demoNodes.getD n blankElement,
        document := [0, 13, 1, 2, 3, 4, 5, 6, 7, 8, 9, 10, 11, 12],
        valueSetter := true },
    trace := [] }

/-! ## Frames on the trace -/

/-- The trace only grows, and what is added satisfies `Q`, a property of lists that holds
of the empty list and is kept by concatenation. -/
def traceFrame (Q : List Action → Prop) (hnil : Q [])
    (happ : ∀ l₁ l₂, Q l₁ → Q l₂ → Q (l₁ ++ l₂)) : Frame where
  rel s s' := ∃ L, s'.trace = s.trace ++ L ∧ Q L
  refl s := ⟨[], (List.append_nil _).symm, hnil⟩
  trans a b c h₁ h₂ := by
    obtain ⟨L₁, e₁, q₁⟩ := h₁
    obtain ⟨L₂, e₂, q₂⟩ := h₂
    exact ⟨L₁ ++ L₂, by rw [e₂, e₁, List.append_assoc], happ _ _ q₁ q₂⟩

/-- The trace only grows, and every entry added satisfies `P`. -/
def emitsFrame (P : Action → Prop) : Frame :=
  traceFrame (fun L => ∀ a ∈ L, P a) (fun _ h => absurd h (List.not_mem_nil _))
    (fun _ _ h₁ h₂ a ha => (List.mem_append.mp ha).elim (h₁ a) (h₂ a))

/-- A console line. -/
def Action.isConsole : Action → Bool
  | .console _ => true
  | _ => false

/-- What a simulated click may do to an element: request focus, dispatch an event. -/
def Action.isGesture : Action → Bool
  | .focus _ => true
  | .dispatch _ _ => true
  | _ => false

/-- What `setInputValue(_, value, _)` may do to an element. -/
def Action.isWriteOf (value : String) : Action → Bool
  | .setDisabled _ _ => true
  | .setReadOnly _ _ => true
  | .nativeSetValue _ v => decide (v = value)
  | .setAttribute _ _ _ => true
  | .focus _ => true
  | .blur _ => true
  | .dispatch _ ev => decide (ev.kind = "input" ∨ ev.kind = "change")
  | _ => false

/-- The selectors resolved while the panel is reset and the two handles are acquired
(source lines 137-186). -/
def acquireSelectors : List String :=
  [".bn-modal-footer", ".bn-modal-footer .bn-button:not(.bn-button__primary)",
    tabSelector "bn-tab-0", "#fromCoinAmount", "input[role=\"slider\"]"]

/-- What the reset and the acquisition of the handles may do: resolve one of their
selectors, click, wait. -/
def Action.isAcquire : Action → Bool
  | .query css _ => decide (css ∈ acquireSelectors)
  | .focus _ => true
  | .dispatch _ _ => true
  | .delay _ _ => true
  | _ => false

/-- The iterations for which `executeTrade` was entered, in order (line 173). -/
def tradeStarts (L : List Action) : List Nat :=
  L.filterMap (fun a => match a with
    | .console (.tradeStart i) => some i
    | _ => none)

/-- The iterations whose `executeTrade` returned normally, in order (line 320). -/
def tradeReturns (L : List Action) : List Nat :=
  L.filterMap (fun a => match a with
    | .console (.tradeCompleted i) => some i
    | _ => none)

/-- The iterations whose `executeTrade` threw, in order (line 322). -/
def tradeThrows (L : List Action) : List Nat :=
  L.filterMap (fun a => match a with
    | .console (.tradeError i _) => some i
    | _ => none)

/-! ## Observation points inside one attempt -/

/-- The page right after the start line of `executeTrade` (line 173). -/
def afterStart (iteration : Nat) (s : Page) : Page := (log (.tradeStart iteration) s).2

/-- The outcome of lines 176-186 in an `executeTrade` call made on page `s`: the two handles
kept for the attempt, or the error thrown, and the page left. -/
def acquired (host : Host) (iteration : Nat) (s : Page) : Except String (Nat × Nat) × Page :=
  acquire host (afterStart iteration s)

/-- The outcome of the first `k` steps of the workflow in an `executeTrade` call made on
page `s` that acquired the handles `buyInput` and `slider`; its page is the one on which
step `k` starts. -/
def beforeStep (host : Host) (iteration : Nat) (s : Page) (buyInput slider k : Nat) :
    Except String Unit × Page :=
  runSteps host ((workflow host buyInput slider).take k) (acquired host iteration s).2

/-- The selectors resolved only by steps that come after the buy amount is entered. -/
def laterSelectors : List String :=
  ["div.t-subtitle3.text-PrimaryText div.bn-flex.cursor-pointer",
    "div.t-subtitle1.text-PrimaryText", "#customize-slippage",
    ".bn-modal-footer .bn-button.bn-button__primary", ".bn-button.bn-button__buy",
    tabSelector "bn-tab-1", ".bn-button.bn-button__sell"]

/-- What only a step after the entry of the buy amount does: resolve the slippage controls,
the confirm, buy or sell button or the sell tab, call `element.click()`, or write the
slippage tolerance or the slider value through the native setter. -/
def Action.isLaterStep : Action → Bool
  | .query css _ => decide (css ∈ laterSelectors)
  | .click _ => true
  | .nativeSetValue _ v => decide (v = "0.1" ∨ v = "100")
  | _ => false

/-- The demonstration page with a buy-amount field that is not an `input` element, so
that the native value setter rejects it. -/
def foreignFieldPage : Page :=
  { dom := (domOf demoNodes true).update 2 (fun e => { e with isInput := false }),
    trace := [] }

/-- A document made of the listed nodes of the demonstration page, in that order. -/
def demoDomWith (document : List Nat) : Dom :=
  { node := fun n => demoNodes.getD n blankElement, document := document, valueSetter := true }

/-- The demonstration page without the slippage settings affordance (node 4) and without
the `#customize-slippage` field (node 7). -/
def bareSlippagePage : Page :=
  { dom := demoDomWith [0, 1, 2, 3, 5, 6, 8, 9, 10, 11, 12], trace := [] }

/-- The demonstration page without a confirm button (node 8). -/
def noConfirmPage : Page :=
  { dom := demoDomWith [0, 1, 2, 3, 4, 5, 6, 7, 9, 10, 11, 12], trace := [] }

/-- The demonstration page in another display language: the custom option (node 6) reads
`Custom`, so that no option node carries the marker `自定义`, while the
`#customize-slippage` field is on the page. -/
def foreignLocalePage : Page :=
  { dom := (domOf demoNodes true).update 6 (fun e => { e with textContent := "Custom" }),
    trace := [] }

/-! ## Handles and suspensions -/

/-- The node an entry of the trace acts on, when it acts on one. -/
def Action.target : Action → Option Nat
  | .setDisabled n _ => some n
  | .setReadOnly n _ => some n
  | .nativeSetValue n _ => some n
  | .setAttribute n _ _ => some n
  | .focus n => some n
  | .blur n => some n
  | .dispatch n _ => some n
  | .click n => some n
  | _ => none

/-- The entries of a stretch of trace that act on a node which no query has returned since
the most recent `randomDelay`; `fresh` lists the nodes returned since the most recent
delay before the stretch. -/
def staleUses : List Nat → List Action → List Action
  | _, [] => []
  | fresh, .query _ found :: rest => staleUses (found ++ fresh) rest
  | _, .delay _ _ :: rest => staleUses [] rest
  | fresh, a :: rest =>
    (match a.target with
      | some n => if n ∈ fresh then [] else [a]
      | none => []) ++ staleUses fresh rest

/-- The trace only grows, and whatever was resolved before, every entry added that acts on
a node not resolved since the most recent delay satisfies `A`. -/
def pacedFrame (A : Action → Prop) : Frame :=
  traceFrame (fun L => ∀ fresh, ∀ a ∈ staleUses fresh L, A a)
    (fun _ _ h => absurd h (List.not_mem_nil _))
    (fun l₁ l₂ h₁ h₂ fresh => by
      have key : ∀ (l : List Action) (fr : List Nat),
          (∀ a ∈ staleUses fr l, A a) → ∀ a ∈ staleUses fr (l ++ l₂), A a := by
        intro l
        induction l with
        | nil => intro fr _; exact h₂ fr
        | cons b l ih =>
          intro fr hb
          cases b
          case query css found => exact ih (found ++ fr) hb
          case delay min max => exact ih [] hb
          all_goals
            intro a ha
            simp only [List.cons_append, staleUses, List.mem_append] at ha hb
            rcases ha with ha | ha
            · exact hb a (Or.inl ha)
            · exact ih fr (fun x hx => hb x (Or.inr hx)) a ha
      exact key l₁ fresh (h₁ fresh))

/-- The uses of a handle across a suspension that `executeTrade` makes: a call of
`element.click()`, a write of `8` through the handle `buyInput`, a write of `100` through
the handle `slider`. -/
def Action.isHeldUse (buyInput slider : Nat) (a : Action) : Bool :=
  match a with
  | .click _ => true
  | _ =>
    (decide (a.target = some buyInput) && a.isWriteOf "8") ||
      (decide (a.target = some slider) && a.isWriteOf "100")

/-- A host that takes the confirm button (node 8) off the page as soon as one
`executeTrade` call has returned. -/
def flakyHost : Host :=
  { listen := fun _ d => d,
    settle := fun trace d =>
      if (tradeReturns trace).length = 0 then d
      else { d with document := d.document.filter (fun n => n != 8) } }

/-! ## Hosts that keep their hands off an element -/

/-- The listeners of the host never change the `disabled` or the `readOnly` flag of the
node `el`. -/
def Host.KeepsGating (host : Host) (el : Nat) : Prop :=
  ∀ trace d, ((host.listen trace d).node el).disabled = (d.node el).disabled ∧
    ((host.listen trace d).node el).readOnly = (d.node el).readOnly

/-- The listeners of the host never change the record of the node `el`. -/
def Host.KeepsNode (host : Host) (el : Nat) : Prop :=
  ∀ trace d, (host.listen trace d).node el = d.node el

/-- The page after the host has been handed the actions `acts` one after the other, the
listeners set off by each run to their end before the next is handed over. -/
def Host.play (host : Host) : List Action → Page → Page
  | [], s => s
  | a :: rest, s =>
    host.play rest { dom := host.listen (s.trace ++ [a]) s.dom, trace := s.trace ++ [a] }

/-- The page on which the reset of an `executeTrade` call made on page `s` returns to the
buy tab: the one left by the dismissal of the modal (lines 137-146). -/
def modalClosed (host : Host) (iteration : Nat) (s : Page) : Page :=
  (resetTradePanel.closeModal host (afterStart iteration s)).2

/-- The outcome of the tab click of line 149 in an `executeTrade` call made on page `s`. -/
def buyTabReset (host : Host) (iteration : Nat) (s : Page) : Except String Bool × Page :=
  clickTab host "bn-tab-0" "买入" (modalClosed host iteration s)

/-- The page on which the reset of an `executeTrade` call made on page `s` looks for the
two fields (lines 156-157), after the delay of line 153. -/
def panelSettled (host : Host) (iteration : Nat) (s : Page) : Page :=
  (randomDelay host 500 1000 (buyTabReset host iteration s).2).2

/-- A host whose `input` listener on the buy-amount field (node 2) disables the field, as a
form does that locks a field once it holds a value. -/
def lockingHost : Host :=
  { listen := fun trace d =>
      if trace.getLast? = some (.dispatch 2 ⟨"input", true, true, none⟩) then
        d.update 2 (fun e => { e with disabled := true })
      else d,
    settle := fun _ d => d }

/-- The demonstration page without a buy tab (node 0). -/
def noBuyTabPage : Page :=
  { dom := demoDomWith [1, 2, 3, 4, 5, 6, 7, 8, 9, 10, 11, 12], trace := [] }

/-- The demonstration page without a slider (node 3). -/
def noSliderPage : Page :=
  { dom := demoDomWith [0, 1, 2, 4, 5, 6, 7, 8, 9, 10, 11, 12], trace := [] }

/-- The demonstration page with its cancel button (node 12) disabled. -/
def lockedCancelPage : Page :=
  { dom := (domOf demoNodes true).update 12 (fun e => { e with disabled := true }), trace := [] }

/-! # Theorems -/

variable {host : Host}

/-! ## Unfolding scripts -/

section Unfold

variable {α β : Type}

@[simp] theorem Script.pure_apply (a : α) (s : Page) :
    (pure a : Script α) s = (.ok a, s) := rfl

@[simp] theorem Script.bind_apply (m : Script α) (f : α → Script β) (s : Page) :
    (m >>= f) s =
      match m s with
      | (.ok a, s') => f a s'
      | (.error e, s') => (.error e, s') := rfl

@[simp] theorem Script.throw_apply (e : String) (s : Page) :
    (throw e : Script α) s = (.error e, s) := rfl

@[simp] theorem Script.tryCatch_apply (m : Script α) (h : String → Script α) (s : Page) :
    (tryCatch m h) s =
      match m s with
      | (.ok a, s') => (.ok a, s')
      | (.error e, s') => h e s' := rfl

@[simp] theorem Script.read_apply (f : Dom → α) (s : Page) :
    Script.read f s = (.ok (f s.dom), s) := rfl

@[simp] theorem Script.perform_apply (a : Action) (f : Dom → Dom) (s : Page) :
    Script.perform a f s = (.ok (), { dom := f s.dom, trace := s.trace ++ [a] }) := rfl

@[simp] theorem Script.fire_apply (host : Host) (a : Action) (s : Page) :
    Script.fire host a s
      = (.ok (), { dom := host.listen (s.trace ++ [a]) s.dom, trace := s.trace ++ [a] }) := rfl

@[simp] theorem Script.when_true (m : Script Unit) : Script.when true m = m := rfl

@[simp] theorem Script.when_false (m : Script Unit) : Script.when false m = pure () := rfl

theorem Script.andFinally_apply (m : Script α) (fin : Script Unit) (s : Page) :
    Script.andFinally m fin s =
      match fin (m s).2 with
      | (.ok _, s'') => ((m s).1, s'')
      | (.error e, s'') => (.error e, s'') := rfl

end Unfold

/-! ## Rules for frames and totality -/

section Rules

variable {α β : Type} {F : Frame}

theorem Script.sat_pure (a : α) : Script.Sat F (Pure.pure a : Script α) := fun s => F.refl s

theorem Script.sat_throw (e : String) : Script.Sat F (throw e : Script α) := fun s => F.refl s

theorem Script.sat_read (f : Dom → α) : Script.Sat F (Script.read f) := fun s => F.refl s

theorem Script.sat_bind {m : Script α} {f : α → Script β} (hm : Script.Sat F m)
    (hf : ∀ a, Script.Sat F (f a)) : Script.Sat F (m >>= f) := by
  intro s
  have h1 := hm s
  rw [Script.bind_apply]
  rcases hms : m s with ⟨r, s'⟩
  rw [hms] at h1
  cases r with
  | error e => exact h1
  | ok a => exact F.trans _ _ _ h1 (hf a s')

theorem Script.sat_tryCatch {m : Script α} {h : String → Script α} (hm : Script.Sat F m)
    (hh : ∀ e, Script.Sat F (h e)) : Script.Sat F (tryCatch m h) := by
  intro s
  have h1 := hm s
  rw [Script.tryCatch_apply]
  rcases hms : m s with ⟨r, s'⟩
  rw [hms] at h1
  cases r with
  | error e => exact F.trans _ _ _ h1 (hh e s')
  | ok a => exact h1

theorem Script.sat_andFinally {m : Script α} {fin : Script Unit} (hm : Script.Sat F m)
    (hf : Script.Sat F fin) : Script.Sat F (Script.andFinally m fin) := by
  intro s
  have h2 := hf (m s).2
  rw [Script.andFinally_apply]
  rcases hfs : fin (m s).2 with ⟨r, s''⟩
  rw [hfs] at h2
  cases r <;> exact F.trans _ _ _ (hm s) h2

theorem Script.sat_when {c : Bool} {m : Script Unit} (hm : Script.Sat F m) :
    Script.Sat F (Script.when c m) := by
  cases c
  · exact Script.sat_pure ()
  · exact hm

theorem Script.total_pure (a : α) : Script.Total (Pure.pure a : Script α) := fun _ => ⟨a, rfl⟩

theorem Script.total_read (f : Dom → α) : Script.Total (Script.read f) := fun _ => ⟨_, rfl⟩

theorem Script.total_perform (a : Action) (f : Dom → Dom) : Script.Total (Script.perform a f) :=
  fun _ => ⟨_, rfl⟩

theorem Script.total_fire (host : Host) (a : Action) : Script.Total (Script.fire host a) :=
  fun _ => ⟨(), rfl⟩

theorem Script.total_bind {m : Script α} {f : α → Script β} (hm : Script.Total m)
    (hf : ∀ a, Script.Total (f a)) : Script.Total (m >>= f) := by
  intro s
  obtain ⟨a, ha⟩ := hm s
  rw [Script.bind_apply]
  rcases hms : m s with ⟨r, s'⟩
  rw [hms] at ha
  subst ha
  exact hf a s'

theorem Script.total_tryCatch {m : Script α} {h : String → Script α}
    (hh : ∀ e, Script.Total (h e)) : Script.Total (tryCatch m h) := by
  intro s
  rw [Script.tryCatch_apply]
  rcases m s with ⟨r, s'⟩
  cases r with
  | error e => exact hh e s'
  | ok a => exact ⟨a, rfl⟩

theorem Script.total_andFinally {m : Script α} {fin : Script Unit} (hm : Script.Total m)
    (hf : Script.Total fin) : Script.Total (Script.andFinally m fin) := by
  intro s
  obtain ⟨a, ha⟩ := hm s
  obtain ⟨u, hu⟩ := hf (m s).2
  rw [Script.andFinally_apply]
  rcases hfs : fin (m s).2 with ⟨r, s''⟩
  rw [hfs] at hu
  subst hu
  exact ⟨a, ha⟩

theorem Script.total_when {c : Bool} {m : Script Unit} (hm : Script.Total m) :
    Script.Total (Script.when c m) := by
  cases c
  · exact Script.total_pure ()
  · exact hm

end Rules

/-! ## `simulateClick` -/

/-- Claim C5. A click on an element whose `disabled` flag is set returns `false` without
raising and leaves the page exactly as it was: nothing is dispatched on the element
(no mousedown, click or mouseup), focus is not requested, no listener of the host runs,
and the trace of the script gains no entry. -/
theorem simulateClick_disabled (host : Host) (s : Page) (el : Nat) (type : String)
    (h : (s.dom.node el).disabled = true) :
    simulateClick host (some el) type s = (.ok false, s) ∧
      (simulateClick host (some el) type s).1 = .ok false ∧
      (simulateClick host (some el) type s).2.trace = s.trace ∧
      (∀ ev, Action.dispatch el ev
        ∉ (simulateClick host (some el) type s).2.trace.drop s.trace.length) ∧
      Action.focus el ∉ (simulateClick host (some el) type s).2.trace.drop s.trace.length := by
  have key : simulateClick host (some el) type s = (.ok false, s) := by
    simp [simulateClick, h]
  rw [key]
  simp

/-- The disabled buy tab of `lockedTabPage` swallows the click. -/
theorem simulateClick_disabled_witness :
    (lockedTabPage.dom.node 0).disabled = true ∧
      simulateClick idleHost (some 0) "Tab" lockedTabPage = (.ok false, lockedTabPage) ∧
      (simulateClick idleHost (some 0) "Tab" lockedTabPage).1 = .ok false ∧
      (simulateClick idleHost (some 0) "Tab" lockedTabPage).2.trace = lockedTabPage.trace :=
  ⟨by decide,
    (simulateClick_disabled idleHost lockedTabPage 0 "Tab" (by decide)).1,
    (simulateClick_disabled idleHost lockedTabPage 0 "Tab" (by decide)).2.1,
    (simulateClick_disabled idleHost lockedTabPage 0 "Tab" (by decide)).2.2.1⟩

/-! ## `setInputValue` -/

theorem setAttribute_gating (el n : Nat) (name value : String) :
    Script.Sat (gatingFrame el) (setAttribute n name value) := by
  intro s
  by_cases h : el = n <;> simp [gatingFrame, setAttribute, Dom.update, h]

theorem fire_gating (el : Nat) (a : Action) (hk : host.KeepsGating el) :
    Script.Sat (gatingFrame el) (Script.fire host a) := fun s => hk _ s.dom

theorem nativeInputValueSetter_gating (el : Nat) :
    Script.Sat (gatingFrame el) nativeInputValueSetter := by
  intro s
  unfold nativeInputValueSetter
  split <;> exact ⟨rfl, rfl⟩

theorem callNativeSetter_gating (el n : Nat) (value : String) :
    Script.Sat (gatingFrame el) (callNativeSetter n value) := by
  intro s
  unfold callNativeSetter
  split
  · by_cases h : el = n <;> simp [gatingFrame, Dom.update, h]
  · exact ⟨rfl, rfl⟩

/-- The `try` block never writes the two gating flags itself: they change in it only if a
listener of the host changes them. -/
theorem write_gating (el n : Nat) (value : String) (a b c : Bool)
    (hk : host.KeepsGating el) :
    Script.Sat (gatingFrame el) (setInputValue.write host n value a b c) := by
  unfold setInputValue.write focus blur dispatchEvent
  refine Script.sat_bind (nativeInputValueSetter_gating el) fun _ => ?_
  refine Script.sat_bind (callNativeSetter_gating el n value) fun _ => ?_
  refine Script.sat_bind (setAttribute_gating el n _ _) fun _ => ?_
  refine Script.sat_bind (Script.sat_when (Script.sat_bind (setAttribute_gating el n _ _)
    fun _ => setAttribute_gating el n _ _)) fun _ => ?_
  refine Script.sat_bind (Script.sat_when (fire_gating el _ hk)) fun _ => ?_
  refine Script.sat_bind (fire_gating el _ hk) fun _ => ?_
  refine Script.sat_bind (Script.sat_when (fire_gating el _ hk)) fun _ => ?_
  exact Script.sat_when (fire_gating el _ hk)

/-- Without a native setter that accepts the element the `try` block throws before it
touches anything. -/
theorem write_fails (el : Nat) (value : String) (a b c : Bool) (s : Page)
    (h : (s.dom.valueSetter && (s.dom.node el).isInput) = false) :
    setInputValue.write host el value a b c s = (.error "TypeError", s) := by
  unfold setInputValue.write nativeInputValueSetter callNativeSetter
  cases hv : s.dom.valueSetter <;> cases hi : (s.dom.node el).isInput <;>
    simp_all

/-- With a native setter that accepts the element the `try` block runs to its end. -/
theorem write_succeeds (el : Nat) (value : String) (a b c : Bool) (s : Page)
    (h : (s.dom.valueSetter && (s.dom.node el).isInput) = true) :
    (setInputValue.write host el value a b c s).1 = .ok () ∧
      (setInputValue.write host el value a b c s).2.trace
        = s.trace ++ setInputValue.writeActions el value a b c := by
  simp only [Bool.and_eq_true] at h
  unfold setInputValue.write nativeInputValueSetter callNativeSetter
  cases a <;> cases b <;> cases c <;>
    simp [h.1, h.2, setInputValue.writeActions, setAttribute, focus, blur, dispatchEvent]

/-- When the listeners of the host leave the element alone, the two ARIA attributes read
back the value after the `try` block ran to its end with `updateAria` in force. -/
theorem write_aria (el : Nat) (value : String) (a b : Bool) (s : Page)
    (hkn : host.KeepsNode el)
    (h : (s.dom.valueSetter && (s.dom.node el).isInput) = true) :
    ((setInputValue.write host el value a b true s).2.dom.node el).attrs "aria-valuenow"
        = some value ∧
      ((setInputValue.write host el value a b true s).2.dom.node el).attrs "aria-valuetext"
        = some (value ++ " units") := by
  simp only [Bool.and_eq_true] at h
  have hkn' : ∀ trace d, (host.listen trace d).node el = d.node el := hkn
  unfold setInputValue.write nativeInputValueSetter callNativeSetter
  cases a <;> cases b <;>
    simp [h.1, h.2, setAttribute, focus, blur, dispatchEvent, Dom.update, hkn']

/-- The guarded write of lines 17-63 in closed form: it ends normally, its value says
whether the native setter was at hand and accepted the element, the trace grows by the
writes and events of the `try` block exactly in that case, and without such a setter the
page is left as it was. -/
theorem guardedWrite_trace (el : Nat) (value : String) (a b c : Bool) (s : Page) :
    (tryCatch (do setInputValue.write host el value a b c; pure true)
        (fun _ => pure false) s).1 = .ok (s.dom.valueSetter && (s.dom.node el).isInput) ∧
      (tryCatch (do setInputValue.write host el value a b c; pure true)
        (fun _ => pure false) s).2.trace
        = s.trace ++ (if s.dom.valueSetter && (s.dom.node el).isInput then
            setInputValue.writeActions el value a b c else []) ∧
      ((s.dom.valueSetter && (s.dom.node el).isInput) = false →
        (tryCatch (do setInputValue.write host el value a b c; pure true)
          (fun _ => pure false) s).2 = s) := by
  cases hok : (s.dom.valueSetter && (s.dom.node el).isInput)
  · simp [write_fails el value a b c s hok]
  · obtain ⟨h1, h2⟩ := @write_succeeds host el value a b c s hok
    rcases hw : setInputValue.write host el value a b c s with ⟨r, s2⟩
    rw [hw] at h1 h2
    simp only at h1 h2
    subst h1
    simp [hw, h2]

/-- The guarded write leaves the two gating flags alone when the listeners of the host
do. -/
theorem guardedWrite_gating (el : Nat) (value : String) (a b c : Bool) (s : Page)
    (hk : host.KeepsGating el) :
    ((tryCatch (do setInputValue.write host el value a b c; pure true)
        (fun _ => pure false) s).2.dom.node el).disabled = (s.dom.node el).disabled ∧
      ((tryCatch (do setInputValue.write host el value a b c; pure true)
        (fun _ => pure false) s).2.dom.node el).readOnly = (s.dom.node el).readOnly :=
  Script.sat_tryCatch (Script.sat_bind (write_gating el el value a b c hk)
    fun _ => Script.sat_pure true) (fun _ => Script.sat_pure false) s

/-- The guarded write, with `updateAria` in force and listeners that leave the element
alone: the two ARIA attributes read back the value. -/
theorem guardedWrite_aria (el : Nat) (value : String) (a b : Bool) (s : Page)
    (hkn : host.KeepsNode el)
    (h : (s.dom.valueSetter && (s.dom.node el).isInput) = true) :
    ((tryCatch (do setInputValue.write host el value a b true; pure true)
        (fun _ => pure false) s).2.dom.node el).attrs "aria-valuenow" = some value ∧
      ((tryCatch (do setInputValue.write host el value a b true; pure true)
        (fun _ => pure false) s).2.dom.node el).attrs "aria-valuetext"
          = some (value ++ " units") := by
  obtain ⟨h1, -⟩ := @write_succeeds host el value a b true s h
  have h3 := @write_aria host el value a b s hkn h
  rcases hw : setInputValue.write host el value a b true s with ⟨r, s2⟩
  rw [hw] at h1 h3
  simp only at h1 h3
  subst h1
  simpa [hw] using h3

/-- The value and the trace of `setInputValue` on a present element, in closed form. -/
theorem setInputValue_spec (s : Page) (el : Nat) (value : String) (options : Options) :
    (setInputValue host (some el) value options s).1
        = .ok (s.dom.valueSetter && (s.dom.node el).isInput) ∧
      (setInputValue host (some el) value options s).2.trace
        = s.trace ++ setInputValue.actions s.dom el value options := by
  unfold setInputValue
  simp only [Script.bind_apply, Script.read_apply]
  cases hd : (s.dom.node el).disabled <;> cases hr : (s.dom.node el).readOnly
  all_goals simp only [Script.when_true, Script.when_false, Script.pure_apply, setDisabled,
    setReadOnly, Script.perform_apply, Script.andFinally_apply, Script.bind_apply]
  all_goals
    rw [(guardedWrite_trace _ _ _ _ _ _).1, (guardedWrite_trace _ _ _ _ _ _).2.1]
  all_goals simp [setInputValue.actions, Dom.update, hd, hr]

/-- Without a native setter that accepts the element the guarded write returns `false`
and leaves the page as it was. -/
theorem guardedWrite_noop (el : Nat) (value : String) (a b c : Bool) (s : Page)
    (h : (s.dom.valueSetter && (s.dom.node el).isInput) = false) :
    (tryCatch (do setInputValue.write host el value a b c; pure true)
      (fun _ => pure false) : Script Bool) s = (.ok false, s) := by
  simp [write_fails el value a b c s h]

/-- What `setInputValue` leaves of the two gating flags of the element. -/
theorem setInputValue_flags (s : Page) (el : Nat) (value : String) (options : Options) :
    ((s.dom.node el).disabled = true →
      ((setInputValue host (some el) value options s).2.dom.node el).disabled = true) ∧
    ((s.dom.node el).readOnly = true →
      ((setInputValue host (some el) value options s).2.dom.node el).readOnly = true) ∧
    (((s.dom.valueSetter && (s.dom.node el).isInput) = false ∨ host.KeepsGating el) →
      ((setInputValue host (some el) value options s).2.dom.node el).disabled
          = (s.dom.node el).disabled ∧
        ((setInputValue host (some el) value options s).2.dom.node el).readOnly
          = (s.dom.node el).readOnly) := by
  unfold setInputValue
  simp only [Script.bind_apply, Script.read_apply]
  cases hd : (s.dom.node el).disabled <;> cases hr : (s.dom.node el).readOnly
  all_goals simp only [Script.when_true, Script.when_false, Script.pure_apply, setDisabled,
    setReadOnly, Script.perform_apply, Script.andFinally_apply, Script.bind_apply]
  all_goals refine ⟨?_, ?_, ?_⟩
  all_goals
    first
    | (intro h; exact absurd h (by decide))
    | (intro _; simp only [Dom.update, if_true]; done)
    | skip
  all_goals
    rintro (h | h)
    · rw [guardedWrite_noop]
      · simp [Dom.update, hd, hr]
      · simpa [Dom.update] using h
    · have hg := fun (p : Page) (a b c : Bool) =>
        @guardedWrite_gating host el value a b c p h
      simp only [Dom.update, if_true, hg, hd, hr, and_self]

theorem actions_gating_writes (d : Dom) (el : Nat) (value : String) (options : Options)
    (a : Action) (ha : a ∈ setInputValue.actions d el value options) :
    (∀ n v, a = .setDisabled n v → n = el ∧ (d.node el).disabled = true) ∧
      (∀ n v, a = .setReadOnly n v → n = el ∧ (d.node el).readOnly = true) := by
  have hw : ∀ x y z, ∀ b ∈ setInputValue.writeActions el value x y z,
      (∀ n v, b ≠ .setDisabled n v) ∧ (∀ n v, b ≠ .setReadOnly n v) := by
    intro x y z
    cases x <;> cases y <;> cases z <;> simp [setInputValue.writeActions]
  simp only [setInputValue.actions, List.mem_append] at ha
  rcases ha with (((ha | ha) | ha) | ha) | ha
  all_goals split at ha
  all_goals
    first
    | exact absurd ha (List.not_mem_nil _)
    | (refine ⟨fun n v e => absurd e ((hw _ _ _ a ha).1 n v),
        fun n v e => absurd e ((hw _ _ _ a ha).2 n v)⟩)
    | (rw [List.mem_singleton.mp ha]; simp_all)

/-- Claim C4, as amended. For every element and value, `setInputValue` ends normally (with
`true` or `false`, never raising).  A `disabled` or `readOnly` flag that was set before the
call is set again when the call returns, on every exit path.  On the path where the native
`HTMLInputElement` value setter cannot be obtained (or rejects the element) the call
returns `false` and both flags are what they were before the call.  The script itself
writes a flag only of that element and only when the flag was set before the call, so
that after a successful call both flags are what they were before, provided the listeners
the host runs inside `focus`, `dispatchEvent` and `blur` leave the two flags alone. -/
theorem setInputValue_restores_gating (host : Host) (s : Page) (el : Nat) (value : String)
    (options : Options) :
    (∃ r, (setInputValue host (some el) value options s).1 = .ok r) ∧
      ((s.dom.node el).disabled = true →
        ((setInputValue host (some el) value options s).2.dom.node el).disabled = true) ∧
      ((s.dom.node el).readOnly = true →
        ((setInputValue host (some el) value options s).2.dom.node el).readOnly = true) ∧
      ((s.dom.valueSetter && (s.dom.node el).isInput) = false →
        (setInputValue host (some el) value options s).1 = .ok false ∧
        ((setInputValue host (some el) value options s).2.dom.node el).disabled
          = (s.dom.node el).disabled ∧
        ((setInputValue host (some el) value options s).2.dom.node el).readOnly
          = (s.dom.node el).readOnly) ∧
      (host.KeepsGating el →
        ((setInputValue host (some el) value options s).2.dom.node el).disabled
          = (s.dom.node el).disabled ∧
        ((setInputValue host (some el) value options s).2.dom.node el).readOnly
          = (s.dom.node el).readOnly) ∧
      (∀ n v, Action.setDisabled n v
          ∈ (setInputValue host (some el) value options s).2.trace.drop s.trace.length →
        n = el ∧ (s.dom.node el).disabled = true) ∧
      (∀ n v, Action.setReadOnly n v
          ∈ (setInputValue host (some el) value options s).2.trace.drop s.trace.length →
        n = el ∧ (s.dom.node el).readOnly = true) := by
  obtain ⟨hres, htr⟩ := @setInputValue_spec host s el value options
  obtain ⟨hd, hr, hkeep⟩ := @setInputValue_flags host s el value options
  refine ⟨⟨_, hres⟩, hd, hr, ?_, fun hk => hkeep (Or.inr hk), ?_, ?_⟩
  · intro hok
    exact ⟨by rw [hres, hok], hkeep (Or.inl hok)⟩
  · intro n v hmem
    rw [htr, List.drop_left] at hmem
    exact (actions_gating_writes _ _ _ _ _ hmem).1 n v rfl
  · intro n v hmem
    rw [htr, List.drop_left] at hmem
    exact (actions_gating_writes _ _ _ _ _ hmem).2 n v rfl

/-- On `noSetterPage` the write to the gated buy-amount field fails softly and the gating
is back in place; on the demonstration page, with a host that never touches the document,
the write succeeds and leaves the flags as they were. -/
theorem setInputValue_restores_gating_witness :
    (noSetterPage.dom.valueSetter && (noSetterPage.dom.node 2).isInput) = false ∧
      (setInputValue idleHost (some 2) "8" ⟨none, none⟩ noSetterPage).1 = .ok false ∧
      ((setInputValue idleHost (some 2) "8" ⟨none, none⟩ noSetterPage).2.dom.node 2).disabled
        = true ∧
      ((setInputValue idleHost (some 2) "8" ⟨none, none⟩ noSetterPage).2.dom.node 2).readOnly
        = true ∧
      ((setInputValue idleHost (some 2) "8" ⟨none, none⟩ demoPage).2.dom.node 2).disabled
        = (demoPage.dom.node 2).disabled :=
  ⟨by decide,
    ((setInputValue_restores_gating idleHost noSetterPage 2 "8" ⟨none, none⟩).2.2.2.1
      (by decide)).1,
    (setInputValue_restores_gating idleHost noSetterPage 2 "8" ⟨none, none⟩).2.1 (by decide),
    (setInputValue_restores_gating idleHost noSetterPage 2 "8" ⟨none, none⟩).2.2.1 (by decide),
    ((setInputValue_restores_gating idleHost demoPage 2 "8" ⟨none, none⟩).2.2.2.2.1
      (fun _ _ => ⟨rfl, rfl⟩)).1⟩

/-- Claim C4, refuted as stated. With a host whose `input` listener disables the
buy-amount field, `setInputValue` on that field, enabled before the call, succeeds and
returns with the field disabled: the `finally` block restores a flag only when it was set
before the call. -/
theorem gating_changed_by_listener :
    (demoPage.dom.node 2).disabled = false ∧
      (setInputValue lockingHost (some 2) "8" ⟨none, none⟩ demoPage).1 = .ok true ∧
      ((setInputValue lockingHost (some 2) "8" ⟨none, none⟩ demoPage).2.dom.node 2).disabled
        = true ∧
      (setInputValue lockingHost (some 2) "8" ⟨none, none⟩ demoPage).2.trace
        = [.nativeSetValue 2 "8", .setAttribute 2 "value" "8",
            .dispatch 2 ⟨"input", true, true, none⟩] := by
  decide

/-- After a successful `setInputValue` with `updateAria` in force the two ARIA attributes
of the element read back the value, when the listeners of the host leave the element
alone. -/
theorem setInputValue_aria (s : Page) (el : Nat) (value : String)
    (triggerChange : Option Bool) (hkn : host.KeepsNode el)
    (hok : (s.dom.valueSetter && (s.dom.node el).isInput) = true) :
    ((setInputValue host (some el) value ⟨triggerChange, some true⟩ s).2.dom.node el).attrs
        "aria-valuenow" = some value ∧
      ((setInputValue host (some el) value ⟨triggerChange, some true⟩ s).2.dom.node el).attrs
        "aria-valuetext" = some (value ++ " units") := by
  unfold setInputValue
  simp only [Script.bind_apply, Script.read_apply, Option.getD_some]
  cases hd : (s.dom.node el).disabled <;> cases hr : (s.dom.node el).readOnly
  all_goals simp only [Script.when_true, Script.when_false, Script.pure_apply, setDisabled,
    setReadOnly, Script.perform_apply, Script.andFinally_apply, Script.bind_apply]
  all_goals (try simp only [Dom.update, if_true])
  all_goals
    exact guardedWrite_aria _ _ _ _ _ hkn (by simpa [Dom.update] using hok)

/-- Claim C10, as amended. Whenever `setInputValue` is called with `updateAria: true` and
succeeds, `aria-valuenow` is set to the value and `aria-valuetext` to the value followed
by `" units"`.  The focus request before the `input` event and the blur request after the
last dispatched event are made exactly when the element's `role` attribute is `slider`,
whatever the options say: the trace grows by the gating lift, the native write, the three
attribute writes, `focus` (slider only), the `input` event, the `change` event (when asked
for), `blur` (slider only), and the gating restore, in this order.  When the listeners of
the host leave the element alone, both attributes read back so afterwards. -/
theorem setInputValue_rich_sync (host : Host) (s : Page) (el : Nat) (value : String)
    (triggerChange : Option Bool)
    (h : (setInputValue host (some el) value ⟨triggerChange, some true⟩ s).1 = .ok true) :
    (setInputValue host (some el) value ⟨triggerChange, some true⟩ s).2.trace
        = s.trace ++
          (if (s.dom.node el).disabled then [.setDisabled el false] else []) ++
          (if (s.dom.node el).readOnly then [.setReadOnly el false] else []) ++
          [.nativeSetValue el value, .setAttribute el "value" value,
            .setAttribute el "aria-valuenow" value,
            .setAttribute el "aria-valuetext" (value ++ " units")] ++
          (if (s.dom.node el).attrs "role" = some "slider" then [.focus el] else []) ++
          [.dispatch el ⟨"input", true, true, none⟩] ++
          (if triggerChange.getD (decide ((s.dom.node el).attrs "role" = some "slider"))
            then [.dispatch el ⟨"change", true, true, none⟩] else []) ++
          (if (s.dom.node el).attrs "role" = some "slider" then [.blur el] else []) ++
          (if (s.dom.node el).disabled then [.setDisabled el true] else []) ++
          (if (s.dom.node el).readOnly then [.setReadOnly el true] else []) ∧
      (host.KeepsNode el →
        ((setInputValue host (some el) value ⟨triggerChange, some true⟩ s).2.dom.node el).attrs
          "aria-valuenow" = some value ∧
        ((setInputValue host (some el) value ⟨triggerChange, some true⟩ s).2.dom.node el).attrs
          "aria-valuetext" = some (value ++ " units")) := by
  have hspec := @setInputValue_spec host s el value ⟨triggerChange, some true⟩
  have hok : (s.dom.valueSetter && (s.dom.node el).isInput) = true := by
    have := hspec.1.symm.trans h
    exact Except.ok.inj this
  refine ⟨?_, fun hkn => setInputValue_aria s el value triggerChange hkn hok⟩
  rw [hspec.2]
  simp [setInputValue.actions, setInputValue.writeActions, hok]

/-- The buy-amount field of the demonstration page has no `role`; rich state sync on it
succeeds and writes the ARIA attributes, which read back the value. -/
theorem setInputValue_rich_sync_witness :
    (setInputValue idleHost (some 2) "100" ⟨some true, some true⟩ demoPage).1 = .ok true ∧
      ((setInputValue idleHost (some 2) "100" ⟨some true, some true⟩ demoPage).2.dom.node 2).attrs
        "aria-valuenow" = some "100" :=
  ⟨by decide,
    ((setInputValue_rich_sync idleHost demoPage 2 "100" (some true) (by decide)).2
      (fun _ _ => rfl)).1⟩

/-- Claim C10, refuted as stated. On the buy-amount field of the demonstration page, whose
`role` is not `slider`, `setInputValue` with `updateAria: true` succeeds and writes both
ARIA attributes, yet the dispatch is not bracketed: no focus and no blur is requested. -/
theorem rich_sync_without_focus_or_blur :
    (demoPage.dom.node 2).attrs "role" = none ∧
      (setInputValue idleHost (some 2) "100" ⟨some true, some true⟩ demoPage).1 = .ok true ∧
      (setInputValue idleHost (some 2) "100" ⟨some true, some true⟩ demoPage).2.trace
        = [.nativeSetValue 2 "100", .setAttribute 2 "value" "100",
            .setAttribute 2 "aria-valuenow" "100",
            .setAttribute 2 "aria-valuetext" "100 units",
            .dispatch 2 ⟨"input", true, true, none⟩,
            .dispatch 2 ⟨"change", true, true, none⟩] ∧
      Action.focus 2
        ∉ (setInputValue idleHost (some 2) "100" ⟨some true, some true⟩ demoPage).2.trace ∧
      Action.blur 2
        ∉ (setInputValue idleHost (some 2) "100" ⟨some true, some true⟩ demoPage).2.trace := by
  decide

/-! ## `simulateClick` and `clickTab` in closed form -/

@[simp] theorem play_trace (host : Host) (acts : List Action) (s : Page) :
    (host.play acts s).trace = s.trace ++ acts := by
  induction acts generalizing s with
  | nil => simp [Host.play]
  | cons a rest ih => simp [Host.play, ih]

/-- The value of `simulateClick` on a present element, and the page it leaves: the host
has been handed the gestures of the click one after the other. -/
theorem simulateClick_spec (s : Page) (el : Nat) (type : String) :
    simulateClick host (some el) type s
      = (.ok (!(s.dom.node el).disabled), host.play (simulateClick.actions s.dom el) s) := by
  cases hd : (s.dom.node el).disabled <;>
    simp [simulateClick, simulateClick.actions, hd, focus, dispatchEvent, Host.play]

/-- Claim C8, as amended. The tab locator of `clickTab` resolves the first candidate, in
document order, that matches the structural selector and whose trimmed text equals the
requested text.  With no such candidate `clickTab` returns `false` and touches nothing;
with one or more, the first of them is the element handed to `simulateClick`: it is
clicked (focus, mousedown, click, mouseup, each with the listeners it sets off) and
`clickTab` returns `true` unless it is disabled, in which case `clickTab` returns `false`
and nothing is touched either. -/
theorem clickTab_first_match (host : Host) (s : Page) (id text : String) :
    (((s.dom.document.filter (fun n => (s.dom.node n).matchesSel (tabSelector id))).filter
        (fun el => decide (jsTrim (s.dom.node el).textContent = text)) = []) →
      clickTab host id text s
        = (.ok false,
            { s with trace := s.trace ++ [.query (tabSelector id)
                (s.dom.document.filter (fun n => (s.dom.node n).matchesSel (tabSelector id)))] }))
    ∧
    (∀ el rest,
      (s.dom.document.filter (fun n => (s.dom.node n).matchesSel (tabSelector id))).filter
        (fun el => decide (jsTrim (s.dom.node el).textContent = text)) = el :: rest →
      clickTab host id text s
          = simulateClick host (some el) ("Tab \"" ++ text ++ "\"")
              { s with trace := s.trace ++ [.query (tabSelector id)
                (s.dom.document.filter
                  (fun n => (s.dom.node n).matchesSel (tabSelector id)))] } ∧
        clickTab host id text s
          = (.ok (!(s.dom.node el).disabled),
              host.play (simulateClick.actions s.dom el)
                { s with trace := s.trace ++ [.query (tabSelector id)
                  (s.dom.document.filter
                    (fun n => (s.dom.node n).matchesSel (tabSelector id)))] }) ∧
        (clickTab host id text s).1 = .ok (!(s.dom.node el).disabled) ∧
        (clickTab host id text s).2.trace
          = s.trace ++ [.query (tabSelector id)
              (s.dom.document.filter (fun n => (s.dom.node n).matchesSel (tabSelector id)))]
            ++ simulateClick.actions s.dom el ∧
        ((s.dom.node el).disabled = true →
          clickTab host id text s
            = (.ok false,
                { s with trace := s.trace ++ [.query (tabSelector id)
                  (s.dom.document.filter
                    (fun n => (s.dom.node n).matchesSel (tabSelector id)))] }))) := by
  constructor
  · intro h
    have hf : (s.dom.document.filter (fun n => (s.dom.node n).matchesSel (tabSelector id))).find?
        (fun el => decide (jsTrim (s.dom.node el).textContent = text)) = none := by
      rw [← List.filter_head?, h]; rfl
    unfold clickTab
    simp only [Script.bind_apply, querySelectorAll, Script.read_apply, hf, Script.pure_apply]
  · intro el rest h
    have hf : (s.dom.document.filter (fun n => (s.dom.node n).matchesSel (tabSelector id))).find?
        (fun el => decide (jsTrim (s.dom.node el).textContent = text)) = some el := by
      rw [← List.filter_head?, h]; rfl
    have key : clickTab host id text s
        = simulateClick host (some el) ("Tab \"" ++ text ++ "\"")
            { s with trace := s.trace ++ [.query (tabSelector id)
              (s.dom.document.filter
                (fun n => (s.dom.node n).matchesSel (tabSelector id)))] } := by
      unfold clickTab
      simp only [Script.bind_apply, querySelectorAll, Script.read_apply, hf]
    refine ⟨key, ?_, ?_, ?_, ?_⟩
    · rw [key, simulateClick_spec]
    · rw [key, simulateClick_spec]
    · rw [key, simulateClick_spec, play_trace]
    · intro hdis
      rw [key, simulateClick_spec]
      simp [simulateClick.actions, hdis, Host.play]

/-- On `twinTabPage` two candidates carry the requested text; the first one, node 0, is
resolved and clicked. -/
theorem clickTab_first_match_witness :
    (twinTabPage.dom.document.filter
        (fun n => (twinTabPage.dom.node n).matchesSel (tabSelector "bn-tab-0"))).filter
        (fun el => decide (jsTrim (twinTabPage.dom.node el).textContent = "买入")) = [0, 13] ∧
      (clickTab idleHost "bn-tab-0" "买入" twinTabPage).1
        = .ok (!(twinTabPage.dom.node 0).disabled) ∧
      (clickTab idleHost "bn-tab-0" "买入" twinTabPage).2.trace
        = twinTabPage.trace ++ [.query (tabSelector "bn-tab-0")
            (twinTabPage.dom.document.filter
              (fun n => (twinTabPage.dom.node n).matchesSel (tabSelector "bn-tab-0")))]
          ++ simulateClick.actions twinTabPage.dom 0 :=
  ⟨by decide,
    ((clickTab_first_match idleHost twinTabPage "bn-tab-0" "买入").2 0 [13]
      (by decide)).2.2.1,
    ((clickTab_first_match idleHost twinTabPage "bn-tab-0" "买入").2 0 [13]
      (by decide)).2.2.2.1⟩

/-- Claim C8, refuted as stated. On `twinTabPage` two candidates match the selector and carry
the text `买入`; the locate result is not none: `clickTab` returns `true` and clicks the
first of the two. -/
theorem clickTab_two_matches_clicks_first :
    (twinTabPage.dom.document.filter
        (fun n => (twinTabPage.dom.node n).matchesSel (tabSelector "bn-tab-0")
          && decide (jsTrim (twinTabPage.dom.node n).textContent = "买入"))).length = 2 ∧
      (clickTab idleHost "bn-tab-0" "买入" twinTabPage).1 = .ok true ∧
      (clickTab idleHost "bn-tab-0" "买入" twinTabPage).2.trace
        = [.query (tabSelector "bn-tab-0") [0, 13], .focus 0,
            .dispatch 0 ⟨"mousedown", true, true, none⟩,
            .dispatch 0 ⟨"click", true, true, some (10, 10)⟩,
            .dispatch 0 ⟨"mouseup", true, true, none⟩] := by
  decide

/-! ## What the scripts add to the trace -/

section Emits

variable {P : Action → Prop}

theorem emitsFrame_mono {α : Type} {P Q : Action → Prop} {m : Script α}
    (h : ∀ a, P a → Q a) (hm : Script.Sat (emitsFrame P) m) : Script.Sat (emitsFrame Q) m := by
  intro s
  obtain ⟨L, e, hL⟩ := hm s
  exact ⟨L, e, fun a ha => h a (hL a ha)⟩

theorem perform_emits (a : Action) (f : Dom → Dom) (h : P a) :
    Script.Sat (emitsFrame P) (Script.perform a f) := fun _ =>
  ⟨[a], rfl, fun b hb => by rw [List.mem_singleton.mp hb]; exact h⟩

theorem fire_emits (host : Host) (a : Action) (h : P a) :
    Script.Sat (emitsFrame P) (Script.fire host a) := fun _ =>
  ⟨[a], rfl, fun b hb => by rw [List.mem_singleton.mp hb]; exact h⟩

theorem querySelector_emits (css : String) (h : ∀ found, P (.query css found)) :
    Script.Sat (emitsFrame P) (querySelector css) := fun _ =>
  ⟨[_], rfl, fun b hb => by rw [List.mem_singleton.mp hb]; exact h _⟩

theorem querySelectorAll_emits (css : String) (h : ∀ found, P (.query css found)) :
    Script.Sat (emitsFrame P) (querySelectorAll css) := fun _ =>
  ⟨[_], rfl, fun b hb => by rw [List.mem_singleton.mp hb]; exact h _⟩

theorem randomDelay_emits (host : Host) (min max : Nat) (h : P (.delay min max)) :
    Script.Sat (emitsFrame P) (randomDelay host min max) := fun _ =>
  ⟨[_], rfl, fun b hb => by rw [List.mem_singleton.mp hb]; exact h⟩

theorem simulateClick_actions_gesture (d : Dom) (el : Nat) :
    ∀ a ∈ simulateClick.actions d el, a.isGesture = true := by
  intro a ha
  unfold simulateClick.actions at ha
  split at ha
  · simp at ha
  · simp at ha
    rcases ha with h | h | h | h <;> subst h <;> rfl

theorem simulateClick_emits (element : Option Nat) (type : String)
    (h : ∀ a, a.isGesture = true → P a) :
    Script.Sat (emitsFrame P) (simulateClick host element type) := by
  intro s
  cases element with
  | none => exact (emitsFrame P).refl s
  | some el =>
    rw [simulateClick_spec]
    exact ⟨_, play_trace _ _ _, fun a ha => h a (simulateClick_actions_gesture _ _ a ha)⟩

theorem writeActions_write (el : Nat) (value : String) (x y z : Bool) :
    ∀ a ∈ setInputValue.writeActions el value x y z, a.isWriteOf value = true := by
  cases x <;> cases y <;> cases z <;> simp [setInputValue.writeActions, Action.isWriteOf]

theorem setInputValue_actions_write (d : Dom) (el : Nat) (value : String) (options : Options) :
    ∀ a ∈ setInputValue.actions d el value options, a.isWriteOf value = true := by
  intro a ha
  simp only [setInputValue.actions, List.mem_append] at ha
  rcases ha with (((ha | ha) | ha) | ha) | ha
  all_goals split at ha
  all_goals
    first
    | exact absurd ha (List.not_mem_nil _)
    | exact writeActions_write _ _ _ _ _ a ha
    | (rw [List.mem_singleton.mp ha]; rfl)

theorem setInputValue_emits (element : Option Nat) (value : String) (options : Options)
    (h : ∀ a, a.isWriteOf value = true → P a) :
    Script.Sat (emitsFrame P) (setInputValue host element value options) := by
  intro s
  cases element with
  | none => exact (emitsFrame P).refl s
  | some el =>
    exact ⟨_, (setInputValue_spec s el value options).2,
      fun a ha => h a (setInputValue_actions_write _ _ _ _ a ha)⟩

theorem clickTab_emits (id text : String) (hq : ∀ found, P (.query (tabSelector id) found))
    (hg : ∀ a, a.isGesture = true → P a) :
    Script.Sat (emitsFrame P) (clickTab host id text) := by
  unfold clickTab
  refine Script.sat_bind (querySelectorAll_emits _ hq) fun _ => ?_
  refine Script.sat_bind (Script.sat_read _) fun element => ?_
  cases element with
  | none => exact Script.sat_pure _
  | some el => exact simulateClick_emits _ _ hg

theorem locateAndClick_emits (css type : String) (hq : ∀ found, P (.query css found))
    (hg : ∀ a, a.isGesture = true → P a) :
    Script.Sat (emitsFrame P) (locateAndClick host css type) := by
  unfold locateAndClick
  refine Script.sat_bind (querySelector_emits _ hq) fun button => ?_
  cases button with
  | none => exact Script.sat_pure _
  | some el => exact simulateClick_emits _ _ hg

theorem clickConfirmButton_emits
    (hq : ∀ found, P (.query ".bn-modal-footer .bn-button.bn-button__primary" found))
    (hg : ∀ a, a.isGesture = true → P a) :
    Script.Sat (emitsFrame P) (clickConfirmButton host) := by
  unfold clickConfirmButton
  refine Script.sat_bind (querySelector_emits _ hq) fun button => ?_
  cases button with
  | none => exact Script.sat_pure _
  | some el => exact simulateClick_emits _ _ hg

theorem query_acquire (css : String) (h : css ∈ acquireSelectors) (found : List Nat) :
    (Action.query css found).isAcquire = true := by
  simp [Action.isAcquire, h]

/-- The reset and the acquisition of the handles only resolve their own selectors, click
and wait. -/
theorem closeModal_acquire (host : Host) :
    Script.Sat (emitsFrame (fun a => a.isAcquire = true)) (resetTradePanel.closeModal host) := by
  unfold resetTradePanel.closeModal
  refine Script.sat_bind (querySelector_emits _ fun _ => query_acquire _ (by decide) _) fun modal => ?_
  cases modal with
  | none => exact Script.sat_pure _
  | some _ =>
    refine Script.sat_bind (querySelector_emits _ fun _ => query_acquire _ (by decide) _) fun cancel => ?_
    cases cancel with
    | none => exact Script.sat_pure _
    | some c =>
      refine Script.sat_bind (simulateClick_emits _ _ ?_) fun _ => ?_
      · intro a ha
        cases a <;> simp_all [Action.isGesture, Action.isAcquire]
      · exact randomDelay_emits _ _ _ rfl

theorem gesture_acquire (a : Action) (ha : a.isGesture = true) : a.isAcquire = true := by
  cases a <;> simp_all [Action.isGesture, Action.isAcquire]

theorem resetTradePanel_acquire (host : Host) :
    Script.Sat (emitsFrame (fun a => a.isAcquire = true)) (resetTradePanel host) := by
  unfold resetTradePanel
  refine Script.sat_tryCatch ?_ fun _ => Script.sat_pure _
  refine Script.sat_bind (closeModal_acquire host) fun _ => ?_
  refine Script.sat_bind (clickTab_emits _ _ (fun _ => query_acquire _ (by decide) _) gesture_acquire) fun ok => ?_
  cases ok with
  | false => exact Script.sat_pure _
  | true =>
    refine Script.sat_bind (randomDelay_emits _ _ _ rfl) fun _ => ?_
    refine Script.sat_bind (querySelector_emits _ fun _ => query_acquire _ (by decide) _) fun _ => ?_
    refine Script.sat_bind (querySelector_emits _ fun _ => query_acquire _ (by decide) _) fun _ => ?_
    split <;> exact Script.sat_pure _

theorem acquire_acquire (host : Host) :
    Script.Sat (emitsFrame (fun a => a.isAcquire = true)) (acquire host) := by
  unfold acquire acquire.handles
  refine Script.sat_bind (resetTradePanel_acquire host) fun ok => ?_
  cases ok with
  | false => exact Script.sat_throw _
  | true =>
    refine Script.sat_bind (querySelector_emits _ fun _ => query_acquire _ (by decide) _) fun b => ?_
    refine Script.sat_bind (querySelector_emits _ fun _ => query_acquire _ (by decide) _) fun sl => ?_
    split
    · exact Script.sat_pure _
    · exact Script.sat_throw _

end Emits

/-! ## Console lines: who writes them -/

theorem gesture_quiet (a : Action) (ha : a.isGesture = true) : a.isConsole = false := by
  cases a <;> simp_all [Action.isGesture, Action.isConsole]

theorem write_quiet (value : String) (a : Action) (ha : a.isWriteOf value = true) :
    a.isConsole = false := by
  cases a <;> simp_all [Action.isWriteOf, Action.isConsole]

theorem acquire_quiet (a : Action) (ha : a.isAcquire = true) : a.isConsole = false := by
  cases a <;> simp_all [Action.isAcquire, Action.isConsole]

theorem configureSlippage_quiet (host : Host) :
    Script.Sat (emitsFrame (fun a => a.isConsole = false)) (configureSlippage host) := by
  unfold configureSlippage configureSlippage.openPanel configureSlippage.pickCustom
    configureSlippage.inject
  refine Script.sat_bind ?_ fun _ => Script.sat_bind ?_ fun _ => ?_
  · refine Script.sat_bind (querySelector_emits _ fun _ => rfl) fun button => ?_
    refine Script.sat_bind ?_ fun _ => randomDelay_emits _ _ _ rfl
    cases button with
    | none => exact Script.sat_pure _
    | some b => exact fire_emits host (.click b) rfl
  · refine Script.sat_bind (querySelectorAll_emits _ fun _ => rfl) fun _ => ?_
    refine Script.sat_bind (Script.sat_read _) fun target => ?_
    refine Script.sat_bind (randomDelay_emits _ _ _ rfl) fun _ => ?_
    refine Script.sat_bind ?_ fun _ => randomDelay_emits _ _ _ rfl
    cases target with
    | none => exact Script.sat_pure _
    | some t => exact fire_emits host (.click t) rfl
  · refine Script.sat_bind (querySelector_emits _ fun _ => rfl) fun _ => ?_
    refine Script.sat_bind (setInputValue_emits _ _ _ (write_quiet _)) fun _ => ?_
    exact randomDelay_emits _ _ _ rfl

theorem guarded_sat {F : Frame} (host : Host) (check : Script Bool) (failure : String)
    (min max : Nat) (hc : Script.Sat F check) (hd : Script.Sat F (randomDelay host min max)) :
    Script.Sat F ((Step.guarded check failure min max).run host) := by
  unfold Step.run
  refine Script.sat_bind hc fun passed => ?_
  cases passed with
  | false => exact Script.sat_throw _
  | true => exact hd

theorem runSteps_sat {F : Frame} (host : Host) (steps : List Step)
    (h : ∀ step ∈ steps, Script.Sat F (step.run host)) : Script.Sat F (runSteps host steps) := by
  induction steps with
  | nil => exact Script.sat_pure _
  | cons step rest ih =>
    unfold runSteps
    exact Script.sat_bind (h step (List.mem_cons_self _ _))
      fun _ => ih fun st hst => h st (List.mem_cons_of_mem _ hst)

theorem workflow_quiet (host : Host) (buyInput slider : Nat) :
    ∀ step ∈ workflow host buyInput slider,
      Script.Sat (emitsFrame (fun a => a.isConsole = false)) (step.run host) := by
  intro step hstep
  simp only [workflow, List.mem_cons, List.mem_singleton, List.not_mem_nil, or_false] at hstep
  rcases hstep with h | h | h | h | h | h | h | h | h | h | h | h <;> subst h
  all_goals
    first
    | exact configureSlippage_quiet host
    | exact guarded_sat host _ _ _ _
        (clickTab_emits _ _ (fun _ => rfl) gesture_quiet) (randomDelay_emits _ _ _ rfl)
    | exact guarded_sat host _ _ _ _
        (setInputValue_emits _ _ _ (write_quiet _)) (randomDelay_emits _ _ _ rfl)
    | exact guarded_sat host _ _ _ _
        (clickConfirmButton_emits (fun _ => rfl) gesture_quiet) (randomDelay_emits _ _ _ rfl)
    | exact guarded_sat host _ _ _ _
        (locateAndClick_emits _ _ (fun _ => rfl) gesture_quiet) (randomDelay_emits _ _ _ rfl)

/-- Between its first and its last console line `executeTrade` writes no console line. -/
theorem attempt_quiet (host : Host) :
    Script.Sat (emitsFrame (fun a => a.isConsole = false)) (executeTrade.attempt host) := by
  unfold executeTrade.attempt
  exact Script.sat_bind (emitsFrame_mono acquire_quiet (acquire_acquire host))
    fun handles => runSteps_sat host _ (workflow_quiet host handles.1 handles.2)

/-- The trace of one `executeTrade` call: the start line, entries that are no console
lines, and then either the completion line, with a normal return, or the error line, with
the error thrown on. -/
theorem executeTrade_trace (host : Host) (iteration : Nat) (s : Page) :
    ∃ L : List Action, (∀ a ∈ L, a.isConsole = false) ∧
      (((executeTrade host iteration s).1 = .ok () ∧
          (executeTrade host iteration s).2.trace
            = s.trace ++ (.console (.tradeStart iteration) :: L
                ++ [.console (.tradeCompleted iteration)])) ∨
        (∃ message, (executeTrade host iteration s).1 = .error message ∧
          (executeTrade host iteration s).2.trace
            = s.trace ++ (.console (.tradeStart iteration) :: L
                ++ [.console (.tradeError iteration message)]))) := by
  obtain ⟨L, e, hL⟩ := attempt_quiet host
    { dom := s.dom, trace := s.trace ++ [.console (.tradeStart iteration)] }
  refine ⟨L, hL, ?_⟩
  unfold executeTrade
  simp only [Script.tryCatch_apply, Script.bind_apply, log, Script.perform_apply, id]
  rcases hat : executeTrade.attempt host
    { dom := s.dom, trace := s.trace ++ [.console (.tradeStart iteration)] } with ⟨r, s2⟩
  rw [hat] at e
  simp only at e
  cases r with
  | ok u =>
    left
    simp [e]
  | error message =>
    right
    exact ⟨message, by simp [e]⟩

theorem quiet_no_lifecycle (L : List Action) (hL : ∀ a ∈ L, a.isConsole = false) :
    tradeStarts L = [] ∧ tradeReturns L = [] ∧ tradeThrows L = [] := by
  induction L with
  | nil => exact ⟨rfl, rfl, rfl⟩
  | cons a L ih =>
    obtain ⟨h1, h2, h3⟩ := ih fun b hb => hL b (List.mem_cons_of_mem _ hb)
    have ha := hL a (List.mem_cons_self _ _)
    unfold tradeStarts tradeReturns tradeThrows at *
    cases a <;> simp_all [Action.isConsole]

theorem tradeStarts_append (L₁ L₂ : List Action) :
    tradeStarts (L₁ ++ L₂) = tradeStarts L₁ ++ tradeStarts L₂ := by
  simp [tradeStarts]

theorem tradeReturns_append (L₁ L₂ : List Action) :
    tradeReturns (L₁ ++ L₂) = tradeReturns L₁ ++ tradeReturns L₂ := by
  simp [tradeReturns]

theorem tradeThrows_append (L₁ L₂ : List Action) :
    tradeThrows (L₁ ++ L₂) = tradeThrows L₁ ++ tradeThrows L₂ := by
  simp [tradeThrows]

/-- One pass through the loop body: it ends normally; `executeTrade` is entered once, for
`i`; and either it returned and the success counter went up by one, or it threw and the
failure counter went up by one. -/
theorem iteration_spec (host : Host) (maxIterations i : Nat) (tally : Tally) (s : Page) :
    ∃ L : List Action,
      (runTradeLoop.iteration host maxIterations i tally s).2.trace = s.trace ++ L ∧
      tradeStarts L = [i] ∧
      (((runTradeLoop.iteration host maxIterations i tally s).1
            = .ok ⟨tally.successfulIterations + 1, tally.failedIterations⟩ ∧
          tradeReturns L = [i] ∧ tradeThrows L = []) ∨
        ((runTradeLoop.iteration host maxIterations i tally s).1
            = .ok ⟨tally.successfulIterations, tally.failedIterations + 1⟩ ∧
          tradeReturns L = [] ∧ tradeThrows L = [i])) := by
  obtain ⟨L, hL, hcase⟩ := executeTrade_trace host i
    { dom := s.dom, trace := s.trace ++ [.console (.iterationStart i maxIterations)] }
  obtain ⟨q1, q2, q3⟩ := quiet_no_lifecycle L hL
  unfold runTradeLoop.iteration
  simp only [Script.tryCatch_apply, Script.bind_apply, log, Script.perform_apply, id,
    Script.pure_apply, randomDelay]
  rcases hex : executeTrade host i
    { dom := s.dom, trace := s.trace ++ [.console (.iterationStart i maxIterations)] }
    with ⟨r, s2⟩
  rw [hex] at hcase
  simp only at hcase
  rcases hcase with ⟨hr, ht⟩ | ⟨message, hr, ht⟩
  · subst hr
    refine ⟨.console (.iterationStart i maxIterations) :: .console (.tradeStart i) :: L
      ++ [.console (.tradeCompleted i), .console (.iterationSucceeded i), .delay 3000 7000],
      ?_, ?_, Or.inl ⟨?_, ?_, ?_⟩⟩
    · simp [ht]
    · simpa [tradeStarts] using q1
    · rfl
    · simpa [tradeReturns] using q2
    · simpa [tradeThrows] using q3
  · subst hr
    refine ⟨.console (.iterationStart i maxIterations) :: .console (.tradeStart i) :: L
      ++ [.console (.tradeError i message), .console (.iterationFailed i message),
        .delay 1000 2000, .delay 3000 7000],
      ?_, ?_, Or.inr ⟨?_, ?_, ?_⟩⟩
    · simp [ht]
    · simpa [tradeStarts] using q1
    · rfl
    · simpa [tradeReturns] using q2
    · simpa [tradeThrows] using q3

/-- The loop from iteration `i` with `remaining` iterations to go. -/
theorem loop_spec (host : Host) (maxIterations : Nat) :
    ∀ (remaining i : Nat) (tally : Tally) (s : Page),
      ∃ (L : List Action) (final : Tally),
        (runTradeLoop.loop host maxIterations remaining i tally s).1 = .ok final ∧
        (runTradeLoop.loop host maxIterations remaining i tally s).2.trace = s.trace ++ L ∧
        tradeStarts L = List.range' i remaining ∧
        final.successfulIterations = tally.successfulIterations + (tradeReturns L).length ∧
        final.failedIterations = tally.failedIterations + (tradeThrows L).length ∧
        (tradeReturns L).length + (tradeThrows L).length = remaining := by
  intro remaining
  induction remaining with
  | zero =>
    intro i tally s
    exact ⟨[], tally, rfl, (List.append_nil _).symm, rfl, rfl, rfl, rfl⟩
  | succ k ih =>
    intro i tally s
    obtain ⟨L₁, e₁, st₁, hcase⟩ := iteration_spec host maxIterations i tally s
    unfold runTradeLoop.loop
    rw [Script.bind_apply]
    rcases hit : runTradeLoop.iteration host maxIterations i tally s with ⟨r, s1⟩
    rw [hit] at e₁ hcase
    simp only at e₁ hcase
    rcases hcase with ⟨hr, rt, th⟩ | ⟨hr, rt, th⟩
    all_goals
      subst hr
      obtain ⟨L₂, final, f1, f2, f3, f4, f5, f6⟩ := ih (i + 1) _ s1
      refine ⟨L₁ ++ L₂, final, f1, ?_, ?_, ?_, ?_, ?_⟩
      · rw [f2, e₁, List.append_assoc]
      · rw [tradeStarts_append, st₁, f3]; rfl
      · rw [tradeReturns_append, rt, f4]; simp <;> omega
      · rw [tradeThrows_append, th, f5]; simp <;> omega
      · rw [tradeReturns_append, tradeThrows_append, rt, th]; simp; omega

/-- The whole of `runTradeLoop`. -/
theorem runTradeLoop_spec (host : Host) (maxIterations : Nat) (s : Page) :
    ∃ (L : List Action) (final : Tally),
      (runTradeLoop host maxIterations s).1 = .ok final ∧
      (runTradeLoop host maxIterations s).2.trace = s.trace ++ L ∧
      tradeStarts L = List.range' 1 maxIterations ∧
      final.successfulIterations = (tradeReturns L).length ∧
      final.failedIterations = (tradeThrows L).length ∧
      (tradeReturns L).length + (tradeThrows L).length = maxIterations := by
  obtain ⟨L, final, f1, f2, f3, f4, f5, f6⟩ :=
    loop_spec host maxIterations maxIterations 1 ⟨0, 0⟩ s
  unfold runTradeLoop
  simp only [Script.bind_apply, log, Script.perform_apply, id, Script.pure_apply]
  rcases hl : runTradeLoop.loop host maxIterations maxIterations 1 ⟨0, 0⟩ s with ⟨r, s1⟩
  rw [hl] at f1 f2
  simp only at f1 f2
  subst f1
  refine ⟨L ++ [.console (.loopCompleted final.successfulIterations final.failedIterations)],
    final, rfl, ?_, ?_, ?_, ?_, ?_⟩
  · simp [f2]
  · rw [tradeStarts_append, f3]; simp [tradeStarts]
  · rw [tradeReturns_append]; simpa [tradeReturns] using f4
  · rw [tradeThrows_append]; simpa [tradeThrows] using f5
  · rw [tradeReturns_append, tradeThrows_append]; simpa [tradeReturns, tradeThrows] using f6

/-! ## `runTradeLoop`: the tally and the containment of faults -/

/-- Claim C1. For every iteration bound and every host and page, `runTradeLoop` completes
with a tally in which `successfulIterations` is the number of `executeTrade` calls that
returned normally, `failedIterations` the number that threw, and their sum the number of
`executeTrade` calls made.  In particular, when no call threw, the tally is
`maxIterations` successes and no failure, so with `maxIterations = 3` it is 3 and 0. -/
theorem runTradeLoop_tally (host : Host) (maxIterations : Nat) (s : Page) :
    ∃ final : Tally, (runTradeLoop host maxIterations s).1 = .ok final ∧
      final.successfulIterations
        = (tradeReturns ((runTradeLoop host maxIterations s).2.trace.drop s.trace.length)).length ∧
      final.failedIterations
        = (tradeThrows ((runTradeLoop host maxIterations s).2.trace.drop s.trace.length)).length ∧
      final.successfulIterations + final.failedIterations
        = (tradeStarts ((runTradeLoop host maxIterations s).2.trace.drop s.trace.length)).length ∧
      (tradeThrows ((runTradeLoop host maxIterations s).2.trace.drop s.trace.length) = [] →
        final = ⟨maxIterations, 0⟩) := by
  obtain ⟨L, final, f1, f2, f3, f4, f5, f6⟩ := runTradeLoop_spec host maxIterations s
  refine ⟨final, f1, ?_⟩
  rw [f2, List.drop_left]
  refine ⟨f4, f5, ?_, ?_⟩
  · rw [f3, List.length_range', f4, f5, f6]
  · intro h
    rw [h] at f5 f6
    rcases final with ⟨a, b⟩
    simp_all

/-- On the demonstration page, where every control is in place and the host never touches
the document, three iterations give three successes and no failure. -/
theorem runTradeLoop_tally_witness :
    tradeThrows ((runTradeLoop idleHost 3 demoPage).2.trace.drop demoPage.trace.length) = [] ∧
      ∃ final : Tally, (runTradeLoop idleHost 3 demoPage).1 = .ok final ∧
        final = ⟨3, 0⟩ :=
  ⟨by decide!,
    (runTradeLoop_tally idleHost 3 demoPage).elim fun final h =>
      ⟨final, h.1, h.2.2.2.2 (by decide!)⟩⟩

/-- Three iterations on a page whose buy-amount field the native setter rejects: every
attempt fails, every attempt is made. -/
theorem runTradeLoop_all_failing :
    (runTradeLoop idleHost 3 foreignFieldPage).1 = .ok ⟨0, 3⟩ ∧
      tradeStarts (runTradeLoop idleHost 3 foreignFieldPage).2.trace = [1, 2, 3] ∧
      tradeThrows (runTradeLoop idleHost 3 foreignFieldPage).2.trace = [1, 2, 3] := by
  decide!

/-- Three iterations with a host that removes the confirm button after the first success:
one success, then two failures, and all three attempts are made. -/
theorem runTradeLoop_failing_after_success :
    (runTradeLoop flakyHost 3 demoPage).1 = .ok ⟨1, 2⟩ ∧
      tradeStarts (runTradeLoop flakyHost 3 demoPage).2.trace = [1, 2, 3] ∧
      tradeReturns (runTradeLoop flakyHost 3 demoPage).2.trace = [1] ∧
      tradeThrows (runTradeLoop flakyHost 3 demoPage).2.trace = [2, 3] := by
  decide!

/-- Claim C2. For every iteration bound and every host and page, whatever fails inside the
attempts, `runTradeLoop` does not reject, and `executeTrade` is entered exactly once for
each `i = 1..maxIterations`, in increasing order: a failure in one iteration never keeps
the later ones from running. -/
theorem runTradeLoop_contains_faults (host : Host) (maxIterations : Nat) (s : Page) :
    (∃ final : Tally, (runTradeLoop host maxIterations s).1 = .ok final) ∧
      tradeStarts ((runTradeLoop host maxIterations s).2.trace.drop s.trace.length)
        = List.range' 1 maxIterations := by
  obtain ⟨L, final, f1, f2, f3, -, -, -⟩ := runTradeLoop_spec host maxIterations s
  refine ⟨⟨final, f1⟩, ?_⟩
  rw [f2, List.drop_left]
  exact f3

/-! ## Fail-fast inside an attempt -/

/-- A guarded step whose check yields `false` throws its message on the page the check
left. -/
theorem guarded_fails (host : Host) (check : Script Bool) (failure : String) (min max : Nat)
    (s : Page) (h : (check s).1 = .ok false) :
    (Step.guarded check failure min max).run host s = (.error failure, (check s).2) := by
  simp only [Step.run, Script.bind_apply]
  rcases hc : check s with ⟨r, s'⟩
  rw [hc] at h
  simp only at h
  subst h
  rfl

/-- When the steps before step `k` pass and the check of step `k` yields `false`, the run
of the steps ends there, with the message of step `k`, on the page its check left. -/
theorem runSteps_fails_at (host : Host) :
    ∀ (steps : List Step) (k : Nat) (check : Script Bool) (failure : String) (min max : Nat)
      (s : Page),
      steps[k]? = some (.guarded check failure min max) →
      (runSteps host (steps.take k) s).1 = .ok () →
      (check (runSteps host (steps.take k) s).2).1 = .ok false →
      runSteps host steps s
        = (.error failure, (check (runSteps host (steps.take k) s).2).2) := by
  intro steps
  induction steps with
  | nil => intro k check failure min max s hk; simp at hk
  | cons st rest ih =>
    intro k check failure min max s hk hpre hcheck
    cases k with
    | zero =>
      simp only [List.getElem?_cons_zero, Option.some.injEq] at hk
      subst hk
      simp only [List.take_zero, runSteps, Script.pure_apply] at hcheck ⊢
      unfold runSteps
      rw [Script.bind_apply, guarded_fails host check failure min max s hcheck]
    | succ k =>
      simp only [List.getElem?_cons_succ] at hk
      simp only [List.take_succ_cons] at hpre hcheck ⊢
      unfold runSteps at hpre hcheck ⊢
      simp only [Script.bind_apply] at hpre hcheck ⊢
      rcases hst : st.run host s with ⟨r, s1⟩
      simp only [hst] at hpre hcheck ⊢
      cases r with
      | error e => simp at hpre
      | ok u =>
        simp only at hpre hcheck ⊢
        exact ih k check failure min max s1 hk hpre hcheck

/-- The same, seen from the `executeTrade` call: the error of step `k` is logged on line
322 and thrown on, and nothing else happens after the failed check. -/
theorem executeTrade_fails_at (host : Host) (iteration : Nat) (s : Page)
    (buyInput slider k : Nat) (check : Script Bool) (failure : String) (min max : Nat)
    (hacq : (acquired host iteration s).1 = .ok (buyInput, slider))
    (hk : (workflow host buyInput slider)[k]? = some (.guarded check failure min max))
    (hpre : (beforeStep host iteration s buyInput slider k).1 = .ok ())
    (hcheck : (check (beforeStep host iteration s buyInput slider k).2).1 = .ok false) :
    executeTrade host iteration s
      = (.error failure,
          (log (.tradeError iteration failure)
            (check (beforeStep host iteration s buyInput slider k).2).2).2) := by
  have hrun := runSteps_fails_at host (workflow host buyInput slider) k check failure min max
    (acquired host iteration s).2 hk hpre hcheck
  unfold beforeStep acquired afterStart at *
  simp only [log, Script.perform_apply, id] at hacq hrun hpre hcheck ⊢
  unfold executeTrade executeTrade.attempt
  simp only [Script.tryCatch_apply, Script.bind_apply, log, Script.perform_apply, id]
  rcases ha : acquire host { dom := s.dom, trace := s.trace ++ [.console (.tradeStart iteration)] }
    with ⟨r1, s1⟩
  simp only [ha] at hacq hrun hpre hcheck ⊢
  subst hacq
  simp only [hrun]
  rfl

theorem acquire_not_later (a : Action) (h : a.isAcquire = true) : a.isLaterStep = false := by
  cases a with
  | query css found =>
    simp only [Action.isAcquire, decide_eq_true_eq, acquireSelectors, List.mem_cons,
      List.mem_singleton, List.not_mem_nil, or_false] at h
    simp only [Action.isLaterStep, decide_eq_false_iff_not]
    rcases h with h | h | h | h | h <;> subst h <;> decide
  | _ => simp_all [Action.isAcquire, Action.isLaterStep]

theorem write8_not_later (a : Action) (h : a.isWriteOf "8" = true) : a.isLaterStep = false := by
  cases a with
  | nativeSetValue n v =>
    simp only [Action.isWriteOf, decide_eq_true_eq] at h
    subst h
    simp [Action.isLaterStep]
  | _ => simp_all [Action.isWriteOf, Action.isLaterStep]

/-- Claim C3. Take any iteration of the loop in which the handles are acquired, the buy tab
is selected, and `setInputValue` on the buy-amount field then returns `false`.
`executeTrade` throws `Failed to set buy input value` at that step and does nothing after
the failed write but log the error; in the whole attempt no selector of a later step is
resolved (so the buy button is never located, let alone clicked), `element.click()` is
never called, and neither the slippage tolerance nor the slider value is written; and the
loop body ends with `failedIterations` one higher and `successfulIterations` unchanged. -/
theorem buy_amount_failure_contained (host : Host) (maxIterations i : Nat) (tally : Tally)
    (s : Page) (buyInput slider : Nat)
    (hacq : (acquired host i (log (.iterationStart i maxIterations) s).2).1
      = .ok (buyInput, slider))
    (htab : (beforeStep host i (log (.iterationStart i maxIterations) s).2
      buyInput slider 1).1 = .ok ())
    (hset : (setInputValue host (some buyInput) "8" ⟨none, none⟩
      (beforeStep host i (log (.iterationStart i maxIterations) s).2 buyInput slider 1).2).1
        = .ok false) :
    executeTrade host i (log (.iterationStart i maxIterations) s).2
        = (.error "Failed to set buy input value",
            (log (.tradeError i "Failed to set buy input value")
              (setInputValue host (some buyInput) "8" ⟨none, none⟩
                (beforeStep host i (log (.iterationStart i maxIterations) s).2
                  buyInput slider 1).2).2).2) ∧
      (∀ a ∈ (executeTrade host i (log (.iterationStart i maxIterations) s).2).2.trace.drop
          s.trace.length, a.isLaterStep = false) ∧
      (runTradeLoop.iteration host maxIterations i tally s).1
        = .ok ⟨tally.successfulIterations, tally.failedIterations + 1⟩ := by
  have hexec := executeTrade_fails_at host i (log (.iterationStart i maxIterations) s).2
    buyInput slider 1 _ "Failed to set buy input value" 2000 4000 hacq rfl htab hset
  refine ⟨hexec, ?_, ?_⟩
  · rw [hexec]
    have e₀ : (afterStart i (log (.iterationStart i maxIterations) s).2).trace
        = s.trace ++ [.console (.iterationStart i maxIterations), .console (.tradeStart i)] := by
      simp [afterStart, log]
    obtain ⟨L₁, e₁, h₁⟩ :=
      acquire_acquire host (afterStart i (log (.iterationStart i maxIterations) s).2)
    have e₁' : (acquired host i (log (.iterationStart i maxIterations) s).2).2.trace
        = (afterStart i (log (.iterationStart i maxIterations) s).2).trace ++ L₁ := e₁
    have hstep : Script.Sat (emitsFrame (fun a => a.isAcquire = true))
        (runSteps host ((workflow host buyInput slider).take 1)) := by
      refine runSteps_sat host _ fun step hstep => ?_
      simp only [workflow, List.take_succ_cons, List.take_zero, List.mem_singleton] at hstep
      subst hstep
      exact guarded_sat host _ _ _ _
        (clickTab_emits _ _ (fun _ => query_acquire _ (by decide) _) gesture_acquire)
        (randomDelay_emits _ _ _ rfl)
    obtain ⟨L₂, e₂, h₂⟩ := hstep (acquired host i (log (.iterationStart i maxIterations) s).2).2
    have e₂' : (beforeStep host i (log (.iterationStart i maxIterations) s).2
          buyInput slider 1).2.trace
        = (acquired host i (log (.iterationStart i maxIterations) s).2).2.trace ++ L₂ := e₂
    have e₃ := (@setInputValue_spec host
      (beforeStep host i (log (.iterationStart i maxIterations) s).2 buyInput slider 1).2
      buyInput "8" ⟨none, none⟩).2
    have h₃ := setInputValue_actions_write
      (beforeStep host i (log (.iterationStart i maxIterations) s).2 buyInput slider 1).2.dom
      buyInput "8" ⟨none, none⟩
    have e₄ : ∀ p : Page, (log (.tradeError i "Failed to set buy input value") p).2.trace
        = p.trace ++ [.console (.tradeError i "Failed to set buy input value")] := fun _ => rfl
    simp only [e₄, e₃, e₂', e₁', e₀, List.append_assoc, List.drop_left]
    intro a ha
    simp only [List.mem_append, List.mem_cons, List.mem_singleton, List.not_mem_nil,
      or_false] at ha
    rcases ha with (ha | ha) | ha | ha | ha | ha
    · subst ha; rfl
    · subst ha; rfl
    · exact acquire_not_later a (h₁ a ha)
    · exact acquire_not_later a (h₂ a ha)
    · exact write8_not_later a (h₃ a ha)
    · subst ha; rfl
  · unfold runTradeLoop.iteration
    simp only [Script.tryCatch_apply, Script.bind_apply]
    have hlog : log (.iterationStart i maxIterations) s
        = (.ok (), (log (.iterationStart i maxIterations) s).2) := rfl
    rw [hlog]
    simp only [hexec]
    rfl

/-- On `foreignFieldPage`, whose buy-amount field is rejected by the native setter, the
first iteration fails at the entry of the buy amount and counts as one failure. -/
theorem buy_amount_failure_contained_witness :
    (setInputValue idleHost (some 2) "8" ⟨none, none⟩
        (beforeStep idleHost 1 (log (.iterationStart 1 3) foreignFieldPage).2 2 3 1).2).1
        = .ok false ∧
      (executeTrade idleHost 1 (log (.iterationStart 1 3) foreignFieldPage).2).1
        = .error "Failed to set buy input value" ∧
      (runTradeLoop.iteration idleHost 3 1 ⟨0, 0⟩ foreignFieldPage).1 = .ok ⟨0, 1⟩ :=
  ⟨by decide!,
    congrArg Prod.fst (buy_amount_failure_contained idleHost 3 1 ⟨0, 0⟩ foreignFieldPage 2 3
      (by decide!) (by decide!) (by decide!)).1,
    (buy_amount_failure_contained idleHost 3 1 ⟨0, 0⟩ foreignFieldPage 2 3
      (by decide!) (by decide!) (by decide!)).2.2⟩

/-! ## Which failures are faults -/

theorem querySelector_total (css : String) : Script.Total (querySelector css) :=
  fun _ => ⟨_, rfl⟩

theorem querySelectorAll_total (css : String) : Script.Total (querySelectorAll css) :=
  fun _ => ⟨_, rfl⟩

theorem randomDelay_total (host : Host) (min max : Nat) :
    Script.Total (randomDelay host min max) := fun _ => ⟨_, rfl⟩

theorem setInputValue_total (element : Option Nat) (value : String) (options : Options) :
    Script.Total (setInputValue host element value options) := by
  intro s
  cases element with
  | none => exact ⟨false, rfl⟩
  | some el => exact ⟨_, (setInputValue_spec s el value options).1⟩

/-- The slippage block never throws. -/
theorem configureSlippage_total (host : Host) : Script.Total (configureSlippage host) := by
  unfold configureSlippage configureSlippage.openPanel configureSlippage.pickCustom
    configureSlippage.inject
  refine Script.total_bind ?_ fun _ => Script.total_bind ?_ fun _ => ?_
  · refine Script.total_bind (querySelector_total _) fun button => ?_
    refine Script.total_bind ?_ fun _ => randomDelay_total _ _ _
    cases button with
    | none => exact Script.total_pure _
    | some b => exact Script.total_fire host (.click b)
  · refine Script.total_bind (querySelectorAll_total _) fun _ => ?_
    refine Script.total_bind (Script.total_read _) fun target => ?_
    refine Script.total_bind (randomDelay_total _ _ _) fun _ => ?_
    refine Script.total_bind ?_ fun _ => randomDelay_total _ _ _
    cases target with
    | none => exact Script.total_pure _
    | some t => exact Script.total_fire host (.click t)
  · refine Script.total_bind (querySelector_total _) fun _ => ?_
    refine Script.total_bind (setInputValue_total _ _ _) fun _ => ?_
    exact randomDelay_total _ _ _

/-- An error while the handles are acquired is logged on line 322 and thrown on, and
nothing else happens. -/
theorem executeTrade_fails_acquiring (host : Host) (iteration : Nat) (s : Page)
    (message : String) (h : (acquired host iteration s).1 = .error message) :
    executeTrade host iteration s
      = (.error message, (log (.tradeError iteration message) (acquired host iteration s).2).2) := by
  unfold acquired afterStart at *
  simp only [log, Script.perform_apply, id] at h ⊢
  unfold executeTrade executeTrade.attempt
  simp only [Script.tryCatch_apply, Script.bind_apply, log, Script.perform_apply, id]
  rcases ha : acquire host { dom := s.dom, trace := s.trace ++ [.console (.tradeStart iteration)] }
    with ⟨r1, s1⟩
  simp only [ha] at h ⊢
  subst h
  rfl

theorem acquire_of_reset_failed (host : Host) (s : Page)
    (h : (resetTradePanel host s).1 = .ok false) :
    acquire host s = (.error "Failed to reset trade panel", (resetTradePanel host s).2) := by
  unfold acquire acquire.handles
  rw [Script.bind_apply]
  rcases hr : resetTradePanel host s with ⟨r, s1⟩
  rw [hr] at h
  simp only at h
  subst h
  rfl

theorem locateAndClick_of_missing (css type : String) (s : Page)
    (h : (querySelector css s).1 = .ok none) : (locateAndClick host css type s).1 = .ok false := by
  unfold locateAndClick
  rw [Script.bind_apply]
  rcases hq : querySelector css s with ⟨r, s1⟩
  rw [hq] at h
  simp only at h
  subst h
  rfl

theorem clickConfirmButton_of_missing (s : Page)
    (h : (querySelector ".bn-modal-footer .bn-button.bn-button__primary" s).1 = .ok none) :
    (clickConfirmButton host s).1 = .ok false := by
  unfold clickConfirmButton
  rw [Script.bind_apply]
  rcases hq : querySelector ".bn-modal-footer .bn-button.bn-button__primary" s with ⟨r, s1⟩
  rw [hq] at h
  simp only at h
  subst h
  rfl

theorem clickTab_of_missing (id text : String) (s : Page)
    (h : (s.dom.document.filter (fun n => (s.dom.node n).matchesSel (tabSelector id))).find?
        (fun el => decide (jsTrim (s.dom.node el).textContent = text)) = none) :
    (clickTab host id text s).1 = .ok false := by
  unfold clickTab
  simp only [Script.bind_apply, querySelectorAll, Script.read_apply, h, Script.pure_apply]

theorem simulateClick_total (host : Host) (element : Option Nat) (type : String) :
    Script.Total (simulateClick host element type) := by
  intro s
  cases element with
  | none => exact ⟨false, rfl⟩
  | some el => exact ⟨_, by rw [simulateClick_spec]⟩

theorem clickTab_total (host : Host) (id text : String) :
    Script.Total (clickTab host id text) := by
  unfold clickTab
  refine Script.total_bind (querySelectorAll_total _) fun _ => ?_
  refine Script.total_bind (Script.total_read _) fun element => ?_
  cases element with
  | none => exact Script.total_pure _
  | some el => exact simulateClick_total host _ _

/-- The dismissal of the modal never throws: a missing footer or cancel button is passed
over and the result of the click on the cancel button decides nothing. -/
theorem closeModal_total (host : Host) : Script.Total (resetTradePanel.closeModal host) := by
  unfold resetTradePanel.closeModal
  refine Script.total_bind (querySelector_total _) fun modal => ?_
  cases modal with
  | none => exact Script.total_pure _
  | some _ =>
    refine Script.total_bind (querySelector_total _) fun cancel => ?_
    cases cancel with
    | none => exact Script.total_pure _
    | some c =>
      exact Script.total_bind (simulateClick_total host _ _) fun _ => randomDelay_total _ _ _

/-- The reset in closed form: the outcome of the tab click on the page the dismissal of the
modal left, and, when the tab was clicked, of the two queries after the delay. -/
theorem resetTradePanel_cases (host : Host) (p : Page) :
    ((clickTab host "bn-tab-0" "买入" (resetTradePanel.closeModal host p).2).1 = .ok false →
      resetTradePanel host p
        = (.ok false, (clickTab host "bn-tab-0" "买入" (resetTradePanel.closeModal host p).2).2)) ∧
    ((clickTab host "bn-tab-0" "买入" (resetTradePanel.closeModal host p).2).1 = .ok true →
      (resetTradePanel host p).1
          = .ok (((querySelector "#fromCoinAmount" (randomDelay host 500 1000
                (clickTab host "bn-tab-0" "买入"
                  (resetTradePanel.closeModal host p).2).2).2).1 != .ok none)
              && ((querySelector "input[role=\"slider\"]" (randomDelay host 500 1000
                (clickTab host "bn-tab-0" "买入"
                  (resetTradePanel.closeModal host p).2).2).2).1 != .ok none)) ∧
        (resetTradePanel host p).2.dom
          = (randomDelay host 500 1000
              (clickTab host "bn-tab-0" "买入" (resetTradePanel.closeModal host p).2).2).2.dom) := by
  obtain ⟨u, hu⟩ := closeModal_total host p
  rcases hc : resetTradePanel.closeModal host p with ⟨r0, p1⟩
  rw [hc] at hu
  simp only at hu
  subst hu
  rcases ht : clickTab host "bn-tab-0" "买入" p1 with ⟨r1, p2⟩
  unfold resetTradePanel
  simp only [Script.tryCatch_apply, Script.bind_apply, hc, ht]
  constructor
  · intro h
    subst h
    rfl
  · intro h
    subst h
    simp only [Bool.not_true, Bool.false_eq_true, if_false, Script.bind_apply, randomDelay,
      querySelector]
    cases hb : List.find? (fun n => ((host.settle (p2.trace ++ [.delay 500 1000]) p2.dom).node n).matchesSel
        "#fromCoinAmount") (host.settle (p2.trace ++ [.delay 500 1000]) p2.dom).document <;>
      cases hs : List.find? (fun n => ((host.settle (p2.trace ++ [.delay 500 1000]) p2.dom).node n).matchesSel
        "input[role=\"slider\"]") (host.settle (p2.trace ++ [.delay 500 1000]) p2.dom).document <;>
      simp [hb, hs]

/-- The resolution of the two handles throws when either is missing. -/
theorem handles_of_missing (p : Page)
    (hmiss : (querySelector "#fromCoinAmount" p).1 = .ok none ∨
      (querySelector "input[role=\"slider\"]" p).1 = .ok none) :
    (acquire.handles p).1 = .error "Required elements not found" := by
  simp only [querySelector, Except.ok.injEq] at hmiss
  unfold acquire.handles
  simp only [Script.bind_apply, querySelector]
  rcases hmiss with h | h
  · rw [h]
    rfl
  · rw [h]
    cases List.find? (fun n => (p.dom.node n).matchesSel "#fromCoinAmount") p.dom.document <;> rfl

/-- After a reset that returned `true` both handles are found. -/
theorem acquire_of_reset_ok (host : Host) (p : Page)
    (h : (resetTradePanel host p).1 = .ok true) :
    ∃ b sl, (acquire host p).1 = .ok (b, sl) := by
  obtain ⟨t, ht⟩ := clickTab_total host "bn-tab-0" "买入" (resetTradePanel.closeModal host p).2
  cases t with
  | false =>
    rw [(resetTradePanel_cases host p).1 ht] at h
    cases h
  | true =>
    obtain ⟨hv, hd⟩ := (resetTradePanel_cases host p).2 ht
    rw [hv] at h
    have hxy := Except.ok.inj h
    simp only [Bool.and_eq_true, bne_iff_ne, ne_eq, querySelector, Except.ok.injEq] at hxy
    rw [← hd] at hxy
    unfold acquire
    rw [Script.bind_apply]
    rcases hr : resetTradePanel host p with ⟨r, q⟩
    rw [hr] at hv hxy
    simp only at hv hxy
    rw [hv, h]
    simp only [Bool.not_true, Bool.false_eq_true, if_false]
    unfold acquire.handles
    simp only [Script.bind_apply, querySelector]
    cases hb : List.find? (fun n => (q.dom.node n).matchesSel "#fromCoinAmount") q.dom.document with
    | none => exact absurd hb hxy.1
    | some b =>
      cases hs : List.find? (fun n => (q.dom.node n).matchesSel "input[role=\"slider\"]")
          q.dom.document with
      | none => exact absurd hs hxy.2
      | some sl => exact ⟨b, sl, rfl⟩

/-- Claim C6, as amended. Every checked step of `executeTrade` fails fast.  The panel
reset is failed by the return to the buy tab (the tab is not located, or the click on it is
refused) and by a buy-amount field or slider that is missing after it, and by nothing
else; when it fails, `executeTrade` throws `Failed to reset trade panel` on the page the
reset left, having done nothing more than log the error.  The resolution of the two
handles throws when either is missing, and every error of the acquisition is the error
of the attempt.  When the check of a guarded step of the workflow yields `false` after
the steps before it passed, `executeTrade` throws the message of that step on the page
its check left; the checks yield `false` when their target is not located.  Every step
of the workflow is guarded in this way except the two runs of the slippage block (steps 2
and 8).  Two parts are not checked.  The dismissal of an open modal inside the reset
never fails it: a missing cancel button is passed over and the result of the click on it
is not used.  In the slippage block a missing settings affordance is only reported and
the result of writing `0.1` into `#customize-slippage` is dropped, so the block never
throws and always runs on to the confirm click, which is guarded. -/
theorem executeTrade_checked_steps_fail_fast (host : Host) (iteration : Nat) (s : Page) :
    (∀ p : Page, (resetTradePanel.closeModal host p).1 = .ok ()) ∧
    ((buyTabReset host iteration s).1 = .ok false →
      resetTradePanel host (afterStart iteration s)
        = (.ok false, (buyTabReset host iteration s).2)) ∧
    ((buyTabReset host iteration s).1 = .ok true →
      ((querySelector "#fromCoinAmount" (panelSettled host iteration s)).1 = .ok none ∨
        (querySelector "input[role=\"slider\"]" (panelSettled host iteration s)).1
          = .ok none) →
      (resetTradePanel host (afterStart iteration s)).1 = .ok false) ∧
    ((buyTabReset host iteration s).1 = .ok true →
      (querySelector "#fromCoinAmount" (panelSettled host iteration s)).1 ≠ .ok none →
      (querySelector "input[role=\"slider\"]" (panelSettled host iteration s)).1 ≠ .ok none →
      (resetTradePanel host (afterStart iteration s)).1 = .ok true) ∧
    ((resetTradePanel host (afterStart iteration s)).1 = .ok false →
      executeTrade host iteration s
        = (.error "Failed to reset trade panel",
            (log (.tradeError iteration "Failed to reset trade panel")
              (resetTradePanel host (afterStart iteration s)).2).2)) ∧
    (∀ p : Page,
      ((querySelector "#fromCoinAmount" p).1 = .ok none ∨
        (querySelector "input[role=\"slider\"]" p).1 = .ok none) →
      (acquire.handles p).1 = .error "Required elements not found") ∧
    (∀ message : String, (acquired host iteration s).1 = .error message →
      executeTrade host iteration s
        = (.error message,
            (log (.tradeError iteration message) (acquired host iteration s).2).2)) ∧
    ((resetTradePanel host (afterStart iteration s)).1 = .ok true →
      ∃ buyInput slider, (acquired host iteration s).1 = .ok (buyInput, slider)) ∧
    (∀ (buyInput slider k : Nat) (check : Script Bool) (failure : String) (min max : Nat),
      (acquired host iteration s).1 = .ok (buyInput, slider) →
      (workflow host buyInput slider)[k]? = some (.guarded check failure min max) →
      (beforeStep host iteration s buyInput slider k).1 = .ok () →
      (check (beforeStep host iteration s buyInput slider k).2).1 = .ok false →
      executeTrade host iteration s
        = (.error failure,
            (log (.tradeError iteration failure)
              (check (beforeStep host iteration s buyInput slider k).2).2).2)) ∧
    (∀ buyInput slider k : Nat, k < 12 → k ≠ 2 → k ≠ 8 →
      ∃ (check : Script Bool) (failure : String) (min max : Nat),
        (workflow host buyInput slider)[k]? = some (.guarded check failure min max)) ∧
    (∀ buyInput slider : Nat,
      (workflow host buyInput slider)[2]? = some .slippage ∧
      (workflow host buyInput slider)[3]? = some (.guarded (clickConfirmButton host)
        "Failed to click Confirm button for sell" 3000 5000) ∧
      (workflow host buyInput slider)[8]? = some .slippage ∧
      (workflow host buyInput slider)[9]? = some (.guarded (clickConfirmButton host)
        "Failed to click Confirm button for sell" 3000 5000)) ∧
    (∀ p : Page, (configureSlippage host p).1 = .ok ()) ∧
    (∀ (id text : String) (p : Page),
      (p.dom.document.filter (fun n => (p.dom.node n).matchesSel (tabSelector id))).find?
        (fun el => decide (jsTrim (p.dom.node el).textContent = text)) = none →
      (clickTab host id text p).1 = .ok false) ∧
    (∀ p : Page,
      (querySelector ".bn-modal-footer .bn-button.bn-button__primary" p).1 = .ok none →
      (clickConfirmButton host p).1 = .ok false) ∧
    (∀ (css type : String) (p : Page),
      (querySelector css p).1 = .ok none → (locateAndClick host css type p).1 = .ok false) := by
  refine ⟨?_, ?_, ?_, ?_, ?_, ?_, ?_, ?_, ?_, ?_, ?_, ?_, ?_, ?_, ?_⟩
  · intro p
    obtain ⟨u, hu⟩ := closeModal_total host p
    exact hu
  · intro h
    exact (resetTradePanel_cases host (afterStart iteration s)).1 h
  · intro h hmiss
    rw [((resetTradePanel_cases host (afterStart iteration s)).2 h).1]
    unfold panelSettled buyTabReset modalClosed at hmiss
    rcases hmiss with hm | hm
    · rw [hm]
      rfl
    · rw [hm]
      simp
  · intro h hb hs
    rw [((resetTradePanel_cases host (afterStart iteration s)).2 h).1]
    unfold panelSettled buyTabReset modalClosed at hb hs
    simp [hb, hs]
  · intro h
    have ha := acquire_of_reset_failed host (afterStart iteration s) h
    have := executeTrade_fails_acquiring host iteration s "Failed to reset trade panel"
      (congrArg Prod.fst ha)
    rw [this]
    unfold acquired
    rw [ha]
  · exact handles_of_missing
  · intro message h
    exact executeTrade_fails_acquiring host iteration s message h
  · intro h
    exact acquire_of_reset_ok host (afterStart iteration s) h
  · intro buyInput slider k check failure min max hacq hk hpre hcheck
    exact executeTrade_fails_at host iteration s buyInput slider k check failure min max
      hacq hk hpre hcheck
  · intro buyInput slider k hk h2 h8
    interval_cases k
    all_goals first
      | exact absurd rfl h2
      | exact absurd rfl h8
      | exact ⟨_, _, _, _, rfl⟩
  · intro buyInput slider
    exact ⟨rfl, rfl, rfl, rfl⟩
  · intro p
    obtain ⟨u, hu⟩ := configureSlippage_total host p
    exact hu
  · exact clickTab_of_missing
  · exact clickConfirmButton_of_missing
  · exact locateAndClick_of_missing

/-- Four runs of the first iteration.  On `noBuyTabPage` the reset cannot return to the
buy tab, on `noSliderPage` it misses the slider: both attempts end with the message of
the reset.  On `lockedCancelPage` the click on the cancel button is refused and the reset
succeeds all the same.  On `noConfirmPage` the confirm click that follows the first
slippage block finds no target, and the attempt ends there with the message of that
step. -/
theorem executeTrade_checked_steps_fail_fast_witness :
    ((buyTabReset idleHost 1 noBuyTabPage).1 = .ok false ∧
      (executeTrade idleHost 1 noBuyTabPage).1 = .error "Failed to reset trade panel") ∧
    ((querySelector "input[role=\"slider\"]" (panelSettled idleHost 1 noSliderPage)).1
        = .ok none ∧
      (executeTrade idleHost 1 noSliderPage).1 = .error "Failed to reset trade panel" ∧
      (acquire.handles noSliderPage).1 = .error "Required elements not found") ∧
    ((simulateClick idleHost (some 12) "Cancel button" lockedCancelPage).1 = .ok false ∧
      (resetTradePanel idleHost (afterStart 1 lockedCancelPage)).1 = .ok true) ∧
    ((clickConfirmButton idleHost (beforeStep idleHost 1 noConfirmPage 2 3 3).2).1 = .ok false ∧
      (executeTrade idleHost 1 noConfirmPage).1
        = .error "Failed to click Confirm button for sell") :=
  ⟨⟨by decide!,
      congrArg Prod.fst
        ((executeTrade_checked_steps_fail_fast idleHost 1 noBuyTabPage).2.2.2.2.1
          (congrArg Prod.fst
            ((executeTrade_checked_steps_fail_fast idleHost 1 noBuyTabPage).2.1
              (by decide!))))⟩,
    ⟨by decide!,
      congrArg Prod.fst
        ((executeTrade_checked_steps_fail_fast idleHost 1 noSliderPage).2.2.2.2.1
          ((executeTrade_checked_steps_fail_fast idleHost 1 noSliderPage).2.2.1
            (by decide!) (Or.inr (by decide!)))),
      (executeTrade_checked_steps_fail_fast idleHost 1 noSliderPage).2.2.2.2.2.1
        noSliderPage (Or.inr (by decide!))⟩,
    ⟨by decide!,
      (executeTrade_checked_steps_fail_fast idleHost 1 lockedCancelPage).2.2.2.1
        (by decide!) (by decide!) (by decide!)⟩,
    ⟨by decide!,
      congrArg Prod.fst
        ((executeTrade_checked_steps_fail_fast idleHost 1 noConfirmPage).2.2.2.2.2.2.2.2.1
          2 3 3 (clickConfirmButton idleHost) "Failed to click Confirm button for sell"
          3000 5000 (by decide!) rfl (by decide!) (by decide!))⟩⟩

/-- On `lockedCancelPage` the click on the cancel button of the open modal is refused;
the attempt is not stopped by it and runs to its end. -/
theorem cancel_click_failure_is_not_a_fault :
    (simulateClick idleHost (some 12) "Cancel button" lockedCancelPage).1 = .ok false ∧
      Action.query ".bn-modal-footer .bn-button:not(.bn-button__primary)" [12]
        ∈ (executeTrade idleHost 1 lockedCancelPage).2.trace ∧
      (executeTrade idleHost 1 lockedCancelPage).1 = .ok () := by
  decide!

/-- Claim C6, refuted as stated. On `bareSlippagePage` the slippage settings affordance is
never located and `#customize-slippage` resolves to nothing, so that the write of `0.1`
returns `false`, on the buy leg and on the sell leg alike; `executeTrade` does not throw
at either step but runs on through the later steps and returns normally. -/
theorem slippage_failures_are_not_faults :
    (setInputValue idleHost none "0.1" ⟨none, none⟩ bareSlippagePage).1 = .ok false ∧
      (executeTrade idleHost 1 bareSlippagePage).1 = .ok () ∧
      ((executeTrade idleHost 1 bareSlippagePage).2.trace.filter
          (fun a => decide (a = .query
            "div.t-subtitle3.text-PrimaryText div.bn-flex.cursor-pointer" []))).length = 2 ∧
      ((executeTrade idleHost 1 bareSlippagePage).2.trace.filter
          (fun a => decide (a = .query "#customize-slippage" []))).length = 2 ∧
      Action.query ".bn-button.bn-button__buy" [9]
        ∈ (executeTrade idleHost 1 bareSlippagePage).2.trace ∧
      Action.query ".bn-button.bn-button__sell" [10]
        ∈ (executeTrade idleHost 1 bareSlippagePage).2.trace := by
  decide!

/-! ## The slippage block without a custom option -/

theorem openPanel_ok (host : Host) (s : Page) :
    (configureSlippage.openPanel host s).1 = .ok () := by
  have ht : Script.Total (configureSlippage.openPanel host) := by
    unfold configureSlippage.openPanel
    refine Script.total_bind (querySelector_total _) fun button => ?_
    refine Script.total_bind ?_ fun _ => randomDelay_total _ _ _
    cases button with
    | none => exact Script.total_pure _
    | some b => exact Script.total_fire host (.click b)
  obtain ⟨u, hu⟩ := ht s
  exact hu

theorem pickCustom_ok (host : Host) (s : Page) :
    (configureSlippage.pickCustom host s).1 = .ok () := by
  have ht : Script.Total (configureSlippage.pickCustom host) := by
    unfold configureSlippage.pickCustom
    refine Script.total_bind (querySelectorAll_total _) fun _ => ?_
    refine Script.total_bind (Script.total_read _) fun target => ?_
    refine Script.total_bind (randomDelay_total _ _ _) fun _ => ?_
    refine Script.total_bind ?_ fun _ => randomDelay_total _ _ _
    cases target with
    | none => exact Script.total_pure _
    | some t => exact Script.total_fire host (.click t)
  obtain ⟨u, hu⟩ := ht s
  exact hu

/-- The slippage block is its three parts run one after the other. -/
theorem configureSlippage_eq (host : Host) (s : Page) :
    configureSlippage host s
      = configureSlippage.inject host
          (configureSlippage.pickCustom host (configureSlippage.openPanel host s).2).2 := by
  unfold configureSlippage
  simp only [Script.bind_apply]
  have h1 := openPanel_ok host s
  rcases ho : configureSlippage.openPanel host s with ⟨r1, p1⟩
  rw [ho] at h1
  simp only at h1
  subst h1
  simp only
  have h2 := pickCustom_ok host p1
  rcases hp : configureSlippage.pickCustom host p1 with ⟨r2, p2⟩
  rw [hp] at h2
  simp only at h2
  subst h2
  rfl

/-- Without a marked option the scan clicks nothing: it resolves the option nodes and waits
twice. -/
theorem pickCustom_without_option (host : Host) (s : Page)
    (h : (s.dom.document.filter
        (fun n => (s.dom.node n).matchesSel "div.t-subtitle1.text-PrimaryText")).find?
        (fun el => jsIncludes (s.dom.node el).textContent "自定义") = none) :
    (configureSlippage.pickCustom host s).2.trace
      = s.trace ++ [.query "div.t-subtitle1.text-PrimaryText"
          (s.dom.document.filter
            (fun n => (s.dom.node n).matchesSel "div.t-subtitle1.text-PrimaryText")),
          .delay 500 1000, .delay 500 1000] := by
  unfold configureSlippage.pickCustom
  simp only [Script.bind_apply, querySelectorAll, Script.read_apply, h, randomDelay,
    Script.pure_apply, List.append_assoc, List.singleton_append]
  rfl

/-- The trace of the write of the tolerance. -/
theorem inject_trace (host : Host) (s : Page) :
    (configureSlippage.inject host s).2.trace
      = s.trace ++ [.query "#customize-slippage"
          (s.dom.document.find? (fun n => (s.dom.node n).matchesSel "#customize-slippage")).toList]
        ++ (match s.dom.document.find? (fun n => (s.dom.node n).matchesSel "#customize-slippage")
            with
          | some el => setInputValue.actions s.dom el "0.1" ⟨none, none⟩
          | none => [])
        ++ [.delay 500 1000] := by
  unfold configureSlippage.inject
  simp only [Script.bind_apply, querySelector]
  cases hq : s.dom.document.find? (fun n => (s.dom.node n).matchesSel "#customize-slippage") with
  | none => simp [setInputValue, randomDelay]
  | some el =>
    have hspec := @setInputValue_spec host
      { dom := s.dom, trace := s.trace ++ [.query "#customize-slippage" [el]] }
      el "0.1" ⟨none, none⟩
    rcases hs : setInputValue host (some el) "0.1" ⟨none, none⟩
      { dom := s.dom, trace := s.trace ++ [.query "#customize-slippage" [el]] } with ⟨r, s1⟩
    rw [hs] at hspec
    simp only at hspec
    simp only [Option.toList, hs, hspec.1, randomDelay, hspec.2]

theorem nativeSetValue_mem_actions (d : Dom) (el : Nat) (value : String) (options : Options)
    (h : (d.valueSetter && (d.node el).isInput) = true) :
    Action.nativeSetValue el value ∈ setInputValue.actions d el value options := by
  simp [setInputValue.actions, setInputValue.writeActions, h]

/-- Claim C7, as amended. The slippage block (buy leg and sell leg) never raises a fault.
Whenever none of the scanned option nodes contains the custom marker, that absence is only
reported and no option is clicked: the scan resolves the option nodes and waits twice.
The block then still resolves `#customize-slippage` and calls `setInputValue` on the
result with `0.1`: when the field is on the page and the native setter accepts it, the
tolerance is written into it in that very step; when the field is absent nothing is
written.  In both cases the block ends normally, and the step that follows it is the
guarded confirm click. -/
theorem configureSlippage_without_custom_option (host : Host) (s : Page) :
    (configureSlippage host s).1 = .ok () ∧
    configureSlippage host s
      = configureSlippage.inject host
          (configureSlippage.pickCustom host (configureSlippage.openPanel host s).2).2 ∧
    (((configureSlippage.openPanel host s).2.dom.document.filter
        (fun n => ((configureSlippage.openPanel host s).2.dom.node n).matchesSel
          "div.t-subtitle1.text-PrimaryText")).find?
        (fun el => jsIncludes ((configureSlippage.openPanel host s).2.dom.node el).textContent
          "自定义") = none →
      (configureSlippage.pickCustom host (configureSlippage.openPanel host s).2).2.trace
        = (configureSlippage.openPanel host s).2.trace
          ++ [.query "div.t-subtitle1.text-PrimaryText"
              ((configureSlippage.openPanel host s).2.dom.document.filter
                (fun n => ((configureSlippage.openPanel host s).2.dom.node n).matchesSel
                  "div.t-subtitle1.text-PrimaryText")),
            .delay 500 1000, .delay 500 1000]) ∧
    (∀ (p : Page) (el : Nat),
      p.dom.document.find? (fun n => (p.dom.node n).matchesSel "#customize-slippage") = some el →
      (p.dom.valueSetter && (p.dom.node el).isInput) = true →
      Action.nativeSetValue el "0.1"
        ∈ (configureSlippage.inject host p).2.trace.drop p.trace.length) ∧
    (∀ p : Page,
      p.dom.document.find? (fun n => (p.dom.node n).matchesSel "#customize-slippage") = none →
      (configureSlippage.inject host p).2.trace
        = p.trace ++ [.query "#customize-slippage" [], .delay 500 1000]) ∧
    (∀ buyInput slider : Nat,
      (workflow host buyInput slider)[2]? = some .slippage ∧
      (workflow host buyInput slider)[3]? = some (.guarded (clickConfirmButton host)
        "Failed to click Confirm button for sell" 3000 5000) ∧
      (workflow host buyInput slider)[8]? = some .slippage ∧
      (workflow host buyInput slider)[9]? = some (.guarded (clickConfirmButton host)
        "Failed to click Confirm button for sell" 3000 5000)) := by
  refine ⟨?_, configureSlippage_eq host s, ?_, ?_, ?_, fun _ _ => ⟨rfl, rfl, rfl, rfl⟩⟩
  · obtain ⟨u, hu⟩ := configureSlippage_total host s
    exact hu
  · exact pickCustom_without_option host _
  · intro p el hq hok
    rw [inject_trace, hq, List.append_assoc, List.append_assoc, List.drop_left]
    simp only [List.mem_append, List.mem_cons, List.mem_singleton]
    exact Or.inr (Or.inl (nativeSetValue_mem_actions _ _ _ _ hok))
  · intro p hq
    rw [inject_trace, hq]
    simp

/-- On `foreignLocalePage` no option carries the marker, nothing is clicked by the scan, and
the tolerance is written into the `#customize-slippage` field all the same. -/
theorem configureSlippage_without_custom_option_witness :
    ((configureSlippage.openPanel idleHost foreignLocalePage).2.dom.document.filter
        (fun n => ((configureSlippage.openPanel idleHost foreignLocalePage).2.dom.node n).matchesSel
          "div.t-subtitle1.text-PrimaryText")).find?
        (fun el => jsIncludes
          ((configureSlippage.openPanel idleHost foreignLocalePage).2.dom.node el).textContent
          "自定义") = none ∧
      (configureSlippage.pickCustom idleHost
          (configureSlippage.openPanel idleHost foreignLocalePage).2).2.trace
        = (configureSlippage.openPanel idleHost foreignLocalePage).2.trace
          ++ [.query "div.t-subtitle1.text-PrimaryText"
              ((configureSlippage.openPanel idleHost foreignLocalePage).2.dom.document.filter
                (fun n =>
                  ((configureSlippage.openPanel idleHost foreignLocalePage).2.dom.node n).matchesSel
                    "div.t-subtitle1.text-PrimaryText")),
            .delay 500 1000, .delay 500 1000] ∧
      Action.nativeSetValue 7 "0.1"
        ∈ (configureSlippage.inject idleHost foreignLocalePage).2.trace.drop
            foreignLocalePage.trace.length :=
  ⟨by decide!,
    (configureSlippage_without_custom_option idleHost foreignLocalePage).2.2.1 (by decide!),
    (configureSlippage_without_custom_option idleHost foreignLocalePage).2.2.2.1
      foreignLocalePage 7 (by decide!) (by decide!)⟩

/-- Claim C7, refuted as stated. On `foreignLocalePage` none of the scanned option nodes
contains the marker `自定义` and no option is clicked, yet the step does inject a value:
`setInputValue` writes the tolerance `0.1` into the `#customize-slippage` field. -/
theorem slippage_written_without_custom_option :
    ((foreignLocalePage.dom.document.filter
        (fun n => (foreignLocalePage.dom.node n).matchesSel
          "div.t-subtitle1.text-PrimaryText")).all
        (fun el => !jsIncludes (foreignLocalePage.dom.node el).textContent "自定义")) = true ∧
      (configureSlippage idleHost foreignLocalePage).1 = .ok () ∧
      (configureSlippage idleHost foreignLocalePage).2.trace
        = [.query "div.t-subtitle3.text-PrimaryText div.bn-flex.cursor-pointer" [4],
            .click 4, .delay 500 1000,
            .query "div.t-subtitle1.text-PrimaryText" [5, 6],
            .delay 500 1000, .delay 500 1000,
            .query "#customize-slippage" [7],
            .nativeSetValue 7 "0.1", .setAttribute 7 "value" "0.1",
            .dispatch 7 ⟨"input", true, true, none⟩,
            .delay 500 1000] ∧
      ((configureSlippage idleHost foreignLocalePage).2.dom.node 7).value = "0.1" := by
  decide!

/-! ## Handles across suspensions -/

theorem pacedFrame_mono {α : Type} {A B : Action → Prop} {m : Script α}
    (h : ∀ a, A a → B a) (hm : Script.Sat (pacedFrame A) m) : Script.Sat (pacedFrame B) m := by
  intro s
  obtain ⟨L, e, hL⟩ := hm s
  exact ⟨L, e, fun fresh a ha => h a (hL fresh a ha)⟩

/-- Entries that all act on nodes resolved since the last delay hold no stale use. -/
theorem staleUses_of_fresh_targets (fresh : List Nat) (L : List Action)
    (h : ∀ a ∈ L, ∃ el ∈ fresh, a.target = some el) : staleUses fresh L = [] := by
  induction L with
  | nil => rfl
  | cons b L ih =>
    obtain ⟨el, hel, ht⟩ := h b (List.mem_cons_self _ _)
    have ih' := ih fun a ha => h a (List.mem_cons_of_mem _ ha)
    cases b <;> simp_all [staleUses, Action.target]

/-- A stale use is an entry of the stretch it is taken from. -/
theorem staleUses_subset (L : List Action) : ∀ fresh, ∀ a ∈ staleUses fresh L, a ∈ L := by
  induction L with
  | nil => intro fresh a ha; exact absurd ha (List.not_mem_nil _)
  | cons b L ih =>
    intro fresh a ha
    cases b
    case query css found => exact List.mem_cons_of_mem _ (ih _ a ha)
    case delay min max => exact List.mem_cons_of_mem _ (ih _ a ha)
    all_goals
      simp only [staleUses, List.mem_append] at ha
      rcases ha with ha | ha
      · split at ha
        · split at ha
          · exact absurd ha (List.not_mem_nil _)
          · rw [List.mem_singleton.mp ha]; exact List.mem_cons_self _ _
        · exact absurd ha (List.not_mem_nil _)
      · exact List.mem_cons_of_mem _ (ih _ a ha)

section Paced

variable {A : Action → Prop}

/-- Stale uses of a stretch followed by another, when both keep to `A` whatever was
resolved before. -/
theorem stale_append (l₁ l₂ : List Action)
    (h₁ : ∀ fresh, ∀ a ∈ staleUses fresh l₁, A a) (h₂ : ∀ fresh, ∀ a ∈ staleUses fresh l₂, A a) :
    ∀ fresh, ∀ a ∈ staleUses fresh (l₁ ++ l₂), A a := by
  have h := (pacedFrame A).trans ⟨⟨fun _ => blankElement, [], true⟩, []⟩
    ⟨⟨fun _ => blankElement, [], true⟩, l₁⟩ ⟨⟨fun _ => blankElement, [], true⟩, l₁ ++ l₂⟩
    ⟨l₁, rfl, h₁⟩ ⟨l₂, rfl, h₂⟩
  obtain ⟨L, e, hL⟩ := h
  simp only [List.nil_append] at e
  rw [e]
  exact hL

theorem stale_singleton_quiet (b : Action) (hb : b.target = none) :
    ∀ fresh, ∀ a ∈ staleUses fresh [b], A a := by
  intro fresh a ha
  cases b <;> simp_all [staleUses, Action.target]

theorem stale_query_then_uses (css : String) (found : List Nat) (acts : List Action)
    (h : ∀ a ∈ acts, ∃ el ∈ found, a.target = some el) :
    ∀ fresh, ∀ a ∈ staleUses fresh (.query css found :: acts), A a := by
  intro fresh a ha
  simp only [staleUses] at ha
  rw [staleUses_of_fresh_targets _ _ (fun b hb =>
    let ⟨el, hel, ht⟩ := h b hb
    ⟨el, List.mem_append_left _ hel, ht⟩)] at ha
  exact absurd ha (List.not_mem_nil _)

theorem querySelector_paced (css : String) : Script.Sat (pacedFrame A) (querySelector css) :=
  fun _ => ⟨[_], rfl, stale_singleton_quiet _ rfl⟩

theorem querySelectorAll_paced (css : String) :
    Script.Sat (pacedFrame A) (querySelectorAll css) :=
  fun _ => ⟨[_], rfl, stale_singleton_quiet _ rfl⟩

theorem randomDelay_paced (host : Host) (min max : Nat) :
    Script.Sat (pacedFrame A) (randomDelay host min max) :=
  fun _ => ⟨[_], rfl, stale_singleton_quiet _ rfl⟩

theorem simulateClick_actions_target (d : Dom) (el : Nat) :
    ∀ a ∈ simulateClick.actions d el, a.target = some el := by
  intro a ha
  unfold simulateClick.actions at ha
  split at ha
  · simp at ha
  · simp at ha
    rcases ha with h | h | h | h <;> subst h <;> rfl

theorem writeActions_target (el : Nat) (value : String) (x y z : Bool) :
    ∀ a ∈ setInputValue.writeActions el value x y z, a.target = some el := by
  cases x <;> cases y <;> cases z <;> simp [setInputValue.writeActions, Action.target]

theorem setInputValue_actions_target (d : Dom) (el : Nat) (value : String)
    (options : Options) : ∀ a ∈ setInputValue.actions d el value options, a.target = some el := by
  intro a ha
  simp only [setInputValue.actions, List.mem_append] at ha
  rcases ha with (((ha | ha) | ha) | ha) | ha
  all_goals split at ha
  all_goals
    first
    | exact absurd ha (List.not_mem_nil _)
    | exact writeActions_target _ _ _ _ _ a ha
    | (rw [List.mem_singleton.mp ha]; rfl)

/-- Resolve, then click what was resolved: nothing stale. -/
theorem locateAndClick_paced (css type : String) :
    Script.Sat (pacedFrame A) (locateAndClick host css type) := by
  intro s
  unfold locateAndClick
  simp only [Script.bind_apply, querySelector]
  cases hq : s.dom.document.find? (fun n => (s.dom.node n).matchesSel css) with
  | none => exact ⟨[_], rfl, stale_singleton_quiet _ rfl⟩
  | some el =>
    simp only [simulateClick_spec, Option.toList]
    refine ⟨.query css [el] :: simulateClick.actions s.dom el, by simp, ?_⟩
    exact stale_query_then_uses _ _ _ fun a ha =>
      ⟨el, List.mem_singleton.mpr rfl, simulateClick_actions_target _ _ a ha⟩

theorem clickConfirmButton_paced : Script.Sat (pacedFrame A) (clickConfirmButton host) :=
  locateAndClick_paced ".bn-modal-footer .bn-button.bn-button__primary" "Confirm button"

theorem clickTab_paced (id text : String) : Script.Sat (pacedFrame A) (clickTab host id text) := by
  intro s
  unfold clickTab
  simp only [Script.bind_apply, querySelectorAll, Script.read_apply]
  cases hf : (s.dom.document.filter (fun n => (s.dom.node n).matchesSel (tabSelector id))).find?
      (fun el => decide (jsTrim (s.dom.node el).textContent = text)) with
  | none => exact ⟨[_], rfl, stale_singleton_quiet _ rfl⟩
  | some el =>
    simp only [simulateClick_spec]
    refine ⟨.query (tabSelector id)
      (s.dom.document.filter (fun n => (s.dom.node n).matchesSel (tabSelector id)))
      :: simulateClick.actions s.dom el, by simp, ?_⟩
    exact stale_query_then_uses _ _ _ fun a ha =>
      ⟨el, List.mem_of_find?_eq_some hf, simulateClick_actions_target _ _ a ha⟩

/-- The modal is dismissed through a cancel button resolved on the spot. -/
theorem closeModal_paced (host : Host) :
    Script.Sat (pacedFrame A) (resetTradePanel.closeModal host) := by
  intro s
  cases hm : s.dom.document.find? (fun n => (s.dom.node n).matchesSel ".bn-modal-footer") with
  | none =>
    refine ⟨[.query ".bn-modal-footer" []], ?_, stale_singleton_quiet _ rfl⟩
    simp [resetTradePanel.closeModal, querySelector, hm]
  | some modal =>
    cases hc : s.dom.document.find? (fun n => (s.dom.node n).matchesSel
        ".bn-modal-footer .bn-button:not(.bn-button__primary)") with
    | none =>
      refine ⟨[.query ".bn-modal-footer" [modal],
        .query ".bn-modal-footer .bn-button:not(.bn-button__primary)" []], ?_, ?_⟩
      · simp [resetTradePanel.closeModal, querySelector, hm, hc]
      · intro fresh a ha
        simp [staleUses] at ha
    | some c =>
      refine ⟨(.query ".bn-modal-footer" [modal]
        :: .query ".bn-modal-footer .bn-button:not(.bn-button__primary)" [c]
        :: simulateClick.actions s.dom c) ++ [.delay 500 1000], ?_, ?_⟩
      · simp [resetTradePanel.closeModal, querySelector, hm, hc, simulateClick_spec,
          randomDelay]
      · refine stale_append _ _ ?_ (stale_singleton_quiet _ rfl)
        intro fresh a ha
        simp only [staleUses] at ha
        rw [staleUses_of_fresh_targets _ _ (fun b hb =>
          ⟨c, by simp, simulateClick_actions_target _ _ b hb⟩)] at ha
        exact absurd ha (List.not_mem_nil _)

/-- The settings affordance is clicked as soon as it is resolved. -/
theorem openPanel_paced (host : Host) :
    Script.Sat (pacedFrame A) (configureSlippage.openPanel host) := by
  intro s
  unfold configureSlippage.openPanel
  simp only [Script.bind_apply, querySelector]
  cases hq : s.dom.document.find? (fun n => (s.dom.node n).matchesSel
      "div.t-subtitle3.text-PrimaryText div.bn-flex.cursor-pointer") with
  | none =>
    refine ⟨[.query "div.t-subtitle3.text-PrimaryText div.bn-flex.cursor-pointer" [],
      .delay 500 1000], by simp [randomDelay], ?_⟩
    intro fresh a ha
    simp [staleUses] at ha
  | some b =>
    refine ⟨[.query "div.t-subtitle3.text-PrimaryText div.bn-flex.cursor-pointer" [b],
      .click b, .delay 500 1000], by simp [randomDelay, nativeClick], ?_⟩
    intro fresh a ha
    simp [staleUses, Action.target] at ha

/-- The custom option is clicked one delay after the scan that found it: the one stale use
of the slippage block. -/
theorem pickCustom_paced (host : Host) (hA : ∀ n, A (.click n)) :
    Script.Sat (pacedFrame A) (configureSlippage.pickCustom host) := by
  intro s
  unfold configureSlippage.pickCustom
  simp only [Script.bind_apply, querySelectorAll, Script.read_apply]
  cases hf : (s.dom.document.filter
      (fun n => (s.dom.node n).matchesSel "div.t-subtitle1.text-PrimaryText")).find?
      (fun el => jsIncludes (s.dom.node el).textContent "自定义") with
  | none =>
    refine ⟨[.query "div.t-subtitle1.text-PrimaryText" (s.dom.document.filter
      (fun n => (s.dom.node n).matchesSel "div.t-subtitle1.text-PrimaryText")),
      .delay 500 1000, .delay 500 1000], by simp [randomDelay], ?_⟩
    intro fresh a ha
    simp [staleUses] at ha
  | some t =>
    refine ⟨[.query "div.t-subtitle1.text-PrimaryText" (s.dom.document.filter
      (fun n => (s.dom.node n).matchesSel "div.t-subtitle1.text-PrimaryText")),
      .delay 500 1000, .click t, .delay 500 1000], by simp [randomDelay, nativeClick], ?_⟩
    intro fresh a ha
    simp [staleUses, Action.target] at ha
    rw [ha]
    exact hA t

/-- The tolerance is written through a handle resolved on the spot. -/
theorem inject_paced (host : Host) :
    Script.Sat (pacedFrame A) (configureSlippage.inject host) := by
  intro s
  refine ⟨([.query "#customize-slippage"
      (s.dom.document.find? (fun n => (s.dom.node n).matchesSel "#customize-slippage")).toList]
    ++ (match s.dom.document.find? (fun n => (s.dom.node n).matchesSel "#customize-slippage")
        with
      | some el => setInputValue.actions s.dom el "0.1" ⟨none, none⟩
      | none => [])) ++ [.delay 500 1000], ?_, ?_⟩
  · rw [inject_trace]
    simp only [List.append_assoc]
  · refine stale_append _ _ ?_ (stale_singleton_quiet _ rfl)
    cases hq : s.dom.document.find? (fun n => (s.dom.node n).matchesSel "#customize-slippage")
      with
    | none =>
      intro fresh a ha
      simp [staleUses] at ha
    | some el =>
      exact stale_query_then_uses _ _ _ fun a ha =>
        ⟨el, List.mem_singleton.mpr rfl, setInputValue_actions_target _ _ _ _ a ha⟩

/-- A write through a handle, whenever the handle was resolved: all that can be stale in
it are writes of that value to that node. -/
theorem setInputValue_paced (el : Nat) (value : String) (options : Options)
    (hA : ∀ a, a.target = some el → a.isWriteOf value = true → A a) :
    Script.Sat (pacedFrame A) (setInputValue host (some el) value options) := by
  intro s
  refine ⟨_, (setInputValue_spec s el value options).2, ?_⟩
  intro fresh a ha
  have hmem := staleUses_subset _ fresh a ha
  exact hA a (setInputValue_actions_target _ _ _ _ a hmem)
    (setInputValue_actions_write _ _ _ _ a hmem)

theorem configureSlippage_paced (host : Host) (hA : ∀ n, A (.click n)) :
    Script.Sat (pacedFrame A) (configureSlippage host) := by
  unfold configureSlippage
  exact Script.sat_bind (openPanel_paced host) fun _ =>
    Script.sat_bind (pickCustom_paced host hA) fun _ => inject_paced host

theorem resetTradePanel_paced (host : Host) :
    Script.Sat (pacedFrame A) (resetTradePanel host) := by
  unfold resetTradePanel
  refine Script.sat_tryCatch ?_ fun _ => Script.sat_pure _
  refine Script.sat_bind (closeModal_paced host) fun _ => ?_
  refine Script.sat_bind (clickTab_paced _ _) fun ok => ?_
  cases ok with
  | false => exact Script.sat_pure _
  | true =>
    refine Script.sat_bind (randomDelay_paced _ _ _) fun _ => ?_
    refine Script.sat_bind (querySelector_paced _) fun _ => ?_
    refine Script.sat_bind (querySelector_paced _) fun _ => ?_
    split <;> exact Script.sat_pure _

theorem acquire_paced (host : Host) : Script.Sat (pacedFrame A) (acquire host) := by
  unfold acquire acquire.handles
  refine Script.sat_bind (resetTradePanel_paced host) fun ok => ?_
  cases ok with
  | false => exact Script.sat_throw _
  | true =>
    refine Script.sat_bind (querySelector_paced _) fun b => ?_
    refine Script.sat_bind (querySelector_paced _) fun sl => ?_
    split
    · exact Script.sat_pure _
    · exact Script.sat_throw _

end Paced

theorem heldUse_click (buyInput slider n : Nat) :
    (Action.click n).isHeldUse buyInput slider = true := rfl

theorem heldUse_buy (buyInput slider : Nat) (a : Action) (ht : a.target = some buyInput)
    (hw : a.isWriteOf "8" = true) : a.isHeldUse buyInput slider = true := by
  cases a <;> simp_all [Action.isHeldUse, Action.target, Action.isWriteOf]

theorem heldUse_slider (buyInput slider : Nat) (a : Action) (ht : a.target = some slider)
    (hw : a.isWriteOf "100" = true) : a.isHeldUse buyInput slider = true := by
  cases a <;> simp_all [Action.isHeldUse, Action.target, Action.isWriteOf]

/-- In the workflow the only uses of a handle across a suspension are the held ones. -/
theorem workflow_paced (host : Host) (buyInput slider : Nat) :
    ∀ step ∈ workflow host buyInput slider,
      Script.Sat (pacedFrame (fun a => a.isHeldUse buyInput slider = true)) (step.run host) := by
  intro step hstep
  simp only [workflow, List.mem_cons, List.mem_singleton, List.not_mem_nil, or_false] at hstep
  rcases hstep with h | h | h | h | h | h | h | h | h | h | h | h <;> subst h
  · exact guarded_sat host _ _ _ _ (clickTab_paced _ _) (randomDelay_paced _ _ _)
  · exact guarded_sat host _ _ _ _
      (setInputValue_paced _ _ _ (heldUse_buy buyInput slider)) (randomDelay_paced _ _ _)
  · exact configureSlippage_paced host (heldUse_click buyInput slider)
  · exact guarded_sat host _ _ _ _ clickConfirmButton_paced (randomDelay_paced _ _ _)
  · exact guarded_sat host _ _ _ _ (locateAndClick_paced _ _) (randomDelay_paced _ _ _)
  · exact guarded_sat host _ _ _ _ clickConfirmButton_paced (randomDelay_paced _ _ _)
  · exact guarded_sat host _ _ _ _ (clickTab_paced _ _) (randomDelay_paced _ _ _)
  · exact guarded_sat host _ _ _ _
      (setInputValue_paced _ _ _ (heldUse_slider buyInput slider)) (randomDelay_paced _ _ _)
  · exact configureSlippage_paced host (heldUse_click buyInput slider)
  · exact guarded_sat host _ _ _ _ clickConfirmButton_paced (randomDelay_paced _ _ _)
  · exact guarded_sat host _ _ _ _ (locateAndClick_paced _ _) (randomDelay_paced _ _ _)
  · exact guarded_sat host _ _ _ _ clickConfirmButton_paced (randomDelay_paced _ _ _)

/-- Inside one attempt the only uses of a handle across a suspension are the held ones,
with the handles the attempt acquired. -/
theorem attempt_paced (host : Host) (s : Page) :
    (pacedFrame (fun a => ∃ buyInput slider,
      (acquire host s).1 = .ok (buyInput, slider) ∧ a.isHeldUse buyInput slider = true)).rel
        s (executeTrade.attempt host s).2 := by
  have h₁ := acquire_paced (A := fun _ => False) host s
  unfold executeTrade.attempt
  rw [Script.bind_apply]
  rcases ha : acquire host s with ⟨r, s1⟩
  rw [ha] at h₁
  cases r with
  | error e =>
    obtain ⟨L, e₁, hL⟩ := h₁
    exact ⟨L, e₁, fun fresh a h => absurd (hL fresh a h) id⟩
  | ok handles =>
    obtain ⟨L₁, e₁, hL₁⟩ := h₁
    obtain ⟨L₂, e₂, hL₂⟩ :=
      runSteps_sat host _ (workflow_paced host handles.1 handles.2) s1
    refine ⟨L₁ ++ L₂, ?_, ?_⟩
    · simp only at e₁ ⊢
      rw [e₂, e₁, List.append_assoc]
    · exact stale_append _ _ (fun fresh a h => absurd (hL₁ fresh a h) id)
        (fun fresh a h => ⟨handles.1, handles.2, rfl, hL₂ fresh a h⟩)

/-- Claim C9, as amended. In every run of `executeTrade`, an action that uses a handle
resolved before the most recent `randomDelay` is one of three kinds: a write of `8`
through the buy-amount handle of line 181, a write of `100` through the slider handle of
line 182 (both handles are resolved once, before step 1, and written in steps 2 and 6
after later suspensions without being resolved again), or an `element.click()` of the
slippage block (the custom option is clicked one delay after the scan that found it).
Every other action, in particular every mouse event of a `simulateClick` call and the
write of `0.1` into `#customize-slippage`, acts on a handle resolved after the most
recent `randomDelay`. -/
theorem stale_handles_are_held (host : Host) (iteration : Nat) (s : Page) :
    ∀ a ∈ staleUses [] ((executeTrade host iteration s).2.trace.drop s.trace.length),
      ∃ buyInput slider, (acquired host iteration s).1 = .ok (buyInput, slider) ∧
        a.isHeldUse buyInput slider = true := by
  unfold acquired
  obtain ⟨L, e, hL⟩ := attempt_paced host (afterStart iteration s)
  have key : ∃ last : Log, (executeTrade host iteration s).2.trace
      = s.trace ++ (.console (.tradeStart iteration) :: (L ++ [.console last])) := by
    unfold executeTrade
    simp only [Script.tryCatch_apply, Script.bind_apply, log, Script.perform_apply, id]
    simp only [afterStart, log, Script.perform_apply, id] at e
    rcases hat : executeTrade.attempt host
      { dom := s.dom, trace := s.trace ++ [.console (.tradeStart iteration)] } with ⟨r, s2⟩
    rw [hat] at e
    simp only at e
    cases r with
    | ok u => exact ⟨.tradeCompleted iteration, by simp [e]⟩
    | error message => exact ⟨.tradeError iteration message, by simp [e]⟩
  obtain ⟨last, hlast⟩ := key
  rw [hlast, List.drop_left]
  exact stale_append [.console (.tradeStart iteration)] (L ++ [.console last])
    (stale_singleton_quiet (.console (.tradeStart iteration)) rfl)
    (stale_append L [.console last] hL (stale_singleton_quiet (.console last) rfl)) []

/-- On the demonstration page the write of `8` in step 2 is a stale use, and it is a held
one: made through the buy-amount handle acquired at the start of the attempt. -/
theorem stale_handles_are_held_witness :
    Action.nativeSetValue 2 "8"
        ∈ staleUses [] ((executeTrade idleHost 1 demoPage).2.trace.drop demoPage.trace.length) ∧
      ∃ buyInput slider, (acquired idleHost 1 demoPage).1 = .ok (buyInput, slider) ∧
        (Action.nativeSetValue 2 "8").isHeldUse buyInput slider = true :=
  ⟨by decide!, stale_handles_are_held idleHost 1 demoPage _ (by decide!)⟩

/-- Claim C9, refuted as stated. In the run of `executeTrade` on the demonstration page, where
every step succeeds, handles are used after a suspension that follows their resolution:
the buy-amount field (node 2) is written in step 2 and the slider (node 3) in step 6
through handles resolved before the delays in between, and the custom option (node 6) is
clicked one delay after it was found. -/
theorem handles_survive_suspensions :
    staleUses [] (executeTrade idleHost 1 demoPage).2.trace
      = [.nativeSetValue 2 "8", .setAttribute 2 "value" "8",
          .dispatch 2 ⟨"input", true, true, none⟩,
          .click 6,
          .nativeSetValue 3 "100", .setAttribute 3 "value" "100",
          .setAttribute 3 "aria-valuenow" "100", .setAttribute 3 "aria-valuetext" "100 units",
          .focus 3, .dispatch 3 ⟨"input", true, true, none⟩,
          .dispatch 3 ⟨"change", true, true, none⟩, .blur 3,
          .click 6] := by
  decide!

end AlphaTool
